import Mathlib

/-!
Verification of the Certification Graph Construction & Sybil-Resistance
Verification Engine of the ppe-polling-app repository.

The Python engine computes with IEEE floats; here float arithmetic is
idealized as real arithmetic (the standard shallow embedding).  Python's
`int(x)` conversion (truncation toward zero) is modelled by `pyInt`,
`math.log` by `Real.log`, `math.sqrt` / `np.sqrt` by `Real.sqrt` (note:
`np.sqrt` of a negative float is NaN; `Real.sqrt` of a negative real is 0;
where this matters it is discussed at the relevant definition).
-/

open Classical in
/-- Python `int(x)` applied to a float: truncation toward zero. -/
noncomputable def pyInt (x : ℝ) : ℤ := if 0 ≤ x then ⌊x⌋ else ⌈x⌉

theorem pyInt_of_nonneg {x : ℝ} (h : 0 ≤ x) : pyInt x = ⌊x⌋ := by
  simp [pyInt, h]

theorem pyInt_nonneg {x : ℝ} (h : 0 ≤ x) : 0 ≤ pyInt x := by
  rw [pyInt_of_nonneg h]; exact Int.floor_nonneg.mpr h

theorem pyInt_nonpos {x : ℝ} (h : x ≤ 0) : pyInt x ≤ 0 := by
  unfold pyInt
  split
  · exact Int.floor_nonpos h
  · exact Int.ceil_le.mpr (by exact_mod_cast h)

theorem pyInt_mono_of_nonneg {x y : ℝ} (hx : 0 ≤ x) (hxy : x ≤ y) :
    pyInt x ≤ pyInt y := by
  rw [pyInt_of_nonneg hx, pyInt_of_nonneg (hx.trans hxy)]
  exact Int.floor_mono hxy

theorem le_pyInt {n : ℤ} {x : ℝ} (hn : 0 ≤ n) (h : (n : ℝ) ≤ x) : n ≤ pyInt x := by
  rw [pyInt_of_nonneg ((Int.cast_nonneg.mpr hn).trans h)]
  exact Int.le_floor.mpr h

theorem pyInt_le {n : ℤ} {x : ℝ} (hx : 0 ≤ x) (h : x < (n : ℝ) + 1) :
    pyInt x ≤ n := by
  rw [pyInt_of_nonneg hx]
  exact Int.lt_add_one_iff.mp (Int.floor_lt.mpr (by push_cast; linarith))

/-! ### Rational bounds on the natural logarithm

All numeric log facts needed below are derived from Mathlib's decimal
bounds on `e` via `exp k ≤ m ^ n ↔ k / n ≤ log m`. -/

theorem log_le_of_pow_le {m : ℕ} {k : ℕ} (hm : 0 < m)
    (h : (m : ℝ) ≤ 2.7182818283 ^ k) : Real.log m ≤ k := by
  have hm' : (0:ℝ) < m := by exact_mod_cast hm
  have h1 : (2.7182818283:ℝ) ^ k ≤ Real.exp 1 ^ k :=
    pow_le_pow_left₀ (by norm_num) (le_of_lt Real.exp_one_gt_d9) k
  have hek : Real.exp 1 ^ k = Real.exp k := by
    rw [← Real.exp_nat_mul]; norm_num
  exact (Real.log_le_iff_le_exp hm').mpr (by rw [← hek]; linarith)

theorem log_le_div_of_pow_le {m : ℕ} {k n : ℕ} (hm : 0 < m) (hn : 0 < n)
    (h : (m : ℝ) ^ n ≤ 2.7182818283 ^ k) : Real.log m ≤ (k : ℝ) / n := by
  have hm' : (0:ℝ) < m := by exact_mod_cast hm
  have h1 : (2.7182818283:ℝ) ^ k ≤ Real.exp 1 ^ k :=
    pow_le_pow_left₀ (by norm_num) (le_of_lt Real.exp_one_gt_d9) k
  have hek : Real.exp 1 ^ k = Real.exp k := by
    rw [← Real.exp_nat_mul]; norm_num
  have h2 : Real.log ((m:ℝ) ^ n) ≤ k :=
    (Real.log_le_iff_le_exp (by positivity)).mpr (by rw [← hek]; linarith)
  rw [Real.log_pow] at h2
  rw [le_div_iff₀ (by exact_mod_cast hn)]
  linarith [h2]

theorem le_log_of_pow_le {m : ℕ} {k n : ℕ} (hm : 0 < m) (hn : 0 < n)
    (h : (2.7182818286:ℝ) ^ k ≤ (m : ℝ) ^ n) : (k : ℝ) / n ≤ Real.log m := by
  have hm' : (0:ℝ) < m := by exact_mod_cast hm
  have h1 : Real.exp k ≤ (m:ℝ) ^ n := by
    refine le_trans ?_ h
    have he : Real.exp 1 ^ k = Real.exp k := by rw [← Real.exp_nat_mul]; norm_num
    rw [← he]
    exact pow_le_pow_left₀ (le_of_lt (Real.exp_pos 1)) (le_of_lt Real.exp_one_lt_d9) k
  have h2 : (k:ℝ) ≤ Real.log ((m:ℝ) ^ n) := (Real.le_log_iff_exp_le (by positivity)).mpr h1
  rw [Real.log_pow] at h2
  rw [div_le_iff₀ (by exact_mod_cast hn)]
  linarith [h2]

theorem one_lt_log_of_le {x : ℝ} (hx : (2.7182818286:ℝ) ≤ x) : 1 < Real.log x :=
  (Real.lt_log_iff_exp_lt (by linarith)).mpr (lt_of_lt_of_le Real.exp_one_lt_d9 hx)

theorem one_lt_log_20 : 1 < Real.log 20 := one_lt_log_of_le (by norm_num)

theorem one_lt_log_50 : 1 < Real.log 50 := one_lt_log_of_le (by norm_num)

theorem one_lt_log_200 : 1 < Real.log 200 := one_lt_log_of_le (by norm_num)

theorem one_lt_log_1000 : 1 < Real.log 1000 := one_lt_log_of_le (by norm_num)

theorem one_lt_log_10000 : 1 < Real.log 10000 := one_lt_log_of_le (by norm_num)

theorem log_50_le_4 : Real.log 50 ≤ 4 := by
  have := log_le_of_pow_le (m := 50) (k := 4) (by norm_num) (by norm_num)
  norm_num at this
  exact this

theorem log_50_ge : (27:ℝ)/10 ≤ Real.log 50 := by
  have := le_log_of_pow_le (m := 50) (k := 27) (n := 10) (by norm_num) (by norm_num)
  norm_num at this ⊢
  exact this

theorem log_200_le_6 : Real.log 200 ≤ 6 := by
  have := log_le_of_pow_le (m := 200) (k := 6) (by norm_num) (by norm_num)
  norm_num at this
  exact this

theorem log_1000_le_8 : Real.log 1000 ≤ 8 := by
  have := log_le_of_pow_le (m := 1000) (k := 8) (by norm_num) (by norm_num)
  norm_num at this
  exact this

theorem log_1000_ge : (67:ℝ)/10 ≤ Real.log 1000 := by
  have := le_log_of_pow_le (m := 1000) (k := 67) (n := 10) (by norm_num) (by norm_num)
  norm_num at this ⊢
  exact this

theorem log_1000_le : Real.log 1000 ≤ (71:ℝ)/10 := by
  have := log_le_div_of_pow_le (m := 1000) (k := 71) (n := 10) (by norm_num) (by norm_num)
  norm_num at this ⊢
  exact this

theorem log_10000_le_10 : Real.log 10000 ≤ 10 := by
  have := log_le_of_pow_le (m := 10000) (k := 10) (by norm_num) (by norm_num)
  norm_num at this
  exact this

/-! ### Parameter model — backend/app/models/poll_parameters.py

`ParameterConstraints` is a pydantic model; ints are modelled as `ℤ` and
floats as `ℝ`.  Pydantic field validation (`Field(..., gt=0)` etc.) runs
before the object exists, so construction is modelled as a function
returning `Except String ParameterConstraints`; the error string names the
offending field, as pydantic's `ValidationError` does. -/

structure ParameterConstraints where
  m : ℤ
  d : ℝ
  kappa : ℤ
  eta_v : ℝ
  eta_e : ℝ
  p : Option ℝ
  b : Option ℝ

open Classical in
/-- The `calculate_b` pydantic validator (`always=True`): derive the
expansion parameter when it was not supplied. -/
noncomputable def calculate_b (m : ℤ) (d eta_v : ℝ) : Option ℝ :=
  if 1 < m then
    let numerator := d * (0.5 - eta_v)
    let denominator := 2 * Real.log m - 2
    if 0 < denominator then some (Real.sqrt (numerator / denominator)) else none
  else none

open Classical in
/-- Construction of `ParameterConstraints(m=…, d=…, kappa=…, eta_v=…, eta_e=…)`
with `p` and `b` left to the derivation validators (this is how both the
calculator and the API build it).  The pydantic bounds are: `m > 0`,
`d > 0`, `20 ≤ kappa ≤ 128`, `0 < eta_v < 0.1`, `0 < eta_e < 0.5`. -/
noncomputable def mkParameterConstraints (m : ℤ) (d : ℝ) (kappa : ℤ)
    (eta_v eta_e : ℝ) : Except String ParameterConstraints :=
  if m ≤ 0 then .error "m: ensure this value is greater than 0"
  else if d ≤ 0 then .error "d: ensure this value is greater than 0"
  else if kappa < 20 then .error "kappa: ensure this value is greater than or equal to 20"
  else if 128 < kappa then .error "kappa: ensure this value is less than or equal to 128"
  else if eta_v ≤ 0 then .error "eta_v: ensure this value is greater than 0"
  else if 0.1 ≤ eta_v then .error "eta_v: ensure this value is less than 0.1"
  else if eta_e ≤ 0 then .error "eta_e: ensure this value is greater than 0"
  else if 0.5 ≤ eta_e then .error "eta_e: ensure this value is less than 0.5"
  else .ok { m := m, d := d, kappa := kappa, eta_v := eta_v, eta_e := eta_e,
             p := some (d / m), b := calculate_b m d eta_v }

/-! ### Parameter validator — backend/app/services/parameter_validator.py

Each `_check_constraint_i` returns `(satisfied, error, warning, calculated)`;
`satisfied` is a proposition about the (real-valued) parameters, the error
and warning messages keep the prose of the source (f-string interpolated
numbers are omitted — a string rendering of a real number is not
expressible here). -/

structure CheckResult where
  satisfied : Prop
  error : Option String
  warning : Option String
  calculated : List (String × ℝ)

open Classical in
/-- Constraint 1: minimum nodes, `m ≥ κ + (ηV·m + 2)·ln m + ηV·m`. -/
noncomputable def check_constraint_1 (params : ParameterConstraints) : CheckResult :=
  let m : ℝ := (params.m : ℝ)
  let rhs : ℝ := (params.kappa : ℝ) + (params.eta_v * m + 2) * Real.log m + params.eta_v * m
  { satisfied := rhs ≤ m
    error := if rhs ≤ m then none else some "Constraint 1: Insufficient participants"
    warning := if rhs ≤ m ∧ m < rhs * 1.2 then
        some "Constraint 1: Participants barely satisfy minimum" else none
    calculated := [("constraint_1_minimum_m", rhs), ("constraint_1_margin", m - rhs)] }

open Classical in
/-- Constraint 2: edge probability bounds `d/m ≤ p ≤ 1`; Python's
`params.p or (d / m)` falls back to `d/m` when `p` is `None` or `0.0`. -/
noncomputable def check_constraint_2 (params : ParameterConstraints) : CheckResult :=
  let d := params.d
  let m : ℝ := (params.m : ℝ)
  let p : ℝ := match params.p with
    | none => d / m
    | some v => if v = 0 then d / m else v
  let lower_bound := d / m
  let upper_bound : ℝ := 1
  { satisfied := lower_bound ≤ p ∧ p ≤ upper_bound
    error := if p < lower_bound then some "Constraint 2: Edge probability too low"
      else if upper_bound < p then some "Constraint 2: Edge probability too high"
      else none
    warning := if p < lower_bound ∨ upper_bound < p then none
      else if 0.9 < p then some "Constraint 2: Edge probability very high" else none
    calculated := [("constraint_2_p", p), ("constraint_2_lower_bound", lower_bound),
                   ("constraint_2_upper_bound", upper_bound)] }

open Classical in
/-- Constraint 3: expansion parameter `b ≥ 1`,
`b = sqrt(d·(1/2 − ηV)/(2·ln m − 2))`, with the degenerate guards of the
source (`m ≤ 1`, non-positive denominator or numerator). -/
noncomputable def check_constraint_3 (params : ParameterConstraints) : CheckResult :=
  if params.m ≤ 1 then ⟨False, some "Constraint 3: m must be greater than 1", none, []⟩
  else
    let denominator := 2 * Real.log (params.m : ℝ) - 2
    if denominator ≤ 0 then
      ⟨False, some "Constraint 3: Invalid m for expansion calculation", none, []⟩
    else
      let numerator := params.d * (0.5 - params.eta_v)
      if numerator ≤ 0 then ⟨False, some "Constraint 3: Invalid parameters", none, []⟩
      else
        let b := Real.sqrt (numerator / denominator)
        ⟨1 ≤ b,
         if 1 ≤ b then none else some "Constraint 3: Insufficient degree for expansion",
         if 1 ≤ b ∧ b < 1.2 then some "Constraint 3: Expansion parameter barely sufficient"
           else none,
         [("constraint_3_b", b),
          ("constraint_3_required_d",
            if 1 ≤ b then params.d else denominator / (0.5 - params.eta_v))]⟩

open Classical in
/-- Constraint 4: failed-PPE threshold `ηE < (b−1)·(1/2 − ηV)/b`,
reported unsatisfiable when the denominator is non-positive or `b < 1`. -/
noncomputable def check_constraint_4 (params : ParameterConstraints) : CheckResult :=
  let denominator := 2 * Real.log (params.m : ℝ) - 2
  if denominator ≤ 0 then ⟨False, some "Constraint 4: Invalid m for constraint 4", none, []⟩
  else
    let b := Real.sqrt (params.d * (0.5 - params.eta_v) / denominator)
    if b < 1 then ⟨False, some "Constraint 4: b less than 1, cannot check constraint 4", none, []⟩
    else
      let upper_bound := (b - 1) * (0.5 - params.eta_v) / b
      ⟨params.eta_e < upper_bound,
       if params.eta_e < upper_bound then none
         else some "Constraint 4: Failed PPE threshold too high",
       if params.eta_e < upper_bound ∧ upper_bound * 0.9 < params.eta_e then
         some "Constraint 4: eta_e close to limit" else none,
       [("constraint_4_eta_e_upper_bound", upper_bound),
        ("constraint_4_margin", upper_bound - params.eta_e)]⟩

open Classical in
/-- Constraint 5: minimum degree `d ≥ 2·ln m/(1/2 − ηV)`. -/
noncomputable def check_constraint_5 (params : ParameterConstraints) : CheckResult :=
  if params.m ≤ 1 then ⟨False, some "Constraint 5: m must be greater than 1", none, []⟩
  else
    let denominator := 0.5 - params.eta_v
    if denominator ≤ 0 then
      ⟨False, some "Constraint 5: Invalid eta_v (must be less than 0.5)", none, []⟩
    else
      let minimum_d := 2 * Real.log (params.m : ℝ) / denominator
      ⟨minimum_d ≤ params.d,
       if minimum_d ≤ params.d then none else some "Constraint 5: Degree too low",
       if minimum_d ≤ params.d ∧ params.d < minimum_d * 1.2 then
         some "Constraint 5: Degree barely above minimum" else none,
       [("constraint_5_minimum_d", minimum_d),
        ("constraint_5_margin", params.d - minimum_d)]⟩

open Classical in
/-- Constraint 6: Sybil-bound sanity for a representative adversary holding
`a = 0.1·m·d` edges; the source computes `c_star = d / (a_typical / m)`. -/
noncomputable def check_constraint_6 (params : ParameterConstraints) : CheckResult :=
  let d := params.d
  let m : ℝ := (params.m : ℝ)
  let a_typical := 0.1 * m * d
  if a_typical = 0 then ⟨False, some "Constraint 6: Invalid parameters for constraint 6", none, []⟩
  else
    let c_star_approximate := d / (a_typical / m)
    ⟨1 ≤ c_star_approximate,
     if 1 ≤ c_star_approximate then none else some "Constraint 6: Invalid Sybil bound",
     none,
     [("constraint_6_c_star", c_star_approximate), ("constraint_6_typical_a", a_typical)]⟩

/-- The results of the six checks, in order. -/
noncomputable def allChecks (params : ParameterConstraints) : List CheckResult :=
  [check_constraint_1 params, check_constraint_2 params, check_constraint_3 params,
   check_constraint_4 params, check_constraint_5 params, check_constraint_6 params]

/-- The error strings accumulated by `validate_all`'s loop. -/
noncomputable def errorsOf (params : ParameterConstraints) : List String :=
  (check_constraint_1 params).error.toList ++ (check_constraint_2 params).error.toList ++
  (check_constraint_3 params).error.toList ++ (check_constraint_4 params).error.toList ++
  (check_constraint_5 params).error.toList ++ (check_constraint_6 params).error.toList

structure ParameterValidationResult where
  valid : Prop
  errors : List String
  warnings : List String
  constraint_1_satisfied : Prop
  constraint_2_satisfied : Prop
  constraint_3_satisfied : Prop
  constraint_4_satisfied : Prop
  constraint_5_satisfied : Prop
  constraint_6_satisfied : Prop
  calculated_values : List (String × ℝ)
  estimated_sybil_resistance : Option ℝ
  estimated_completion_rate : Option ℝ

/-- `_estimate_sybil_resistance`: heuristic percentage. -/
noncomputable def estimate_sybil_resistance (params : ParameterConstraints) : ℝ :=
  let m : ℝ := (params.m : ℝ)
  let d := params.d
  let a := 0.1 * m * d
  let max_sybil := a / d
  let sybil_percentage := max_sybil / m * 100
  let resistance_percentage := 100 - sybil_percentage
  max 0 (min 100 resistance_percentage)

/-- `_estimate_completion_rate`: heuristic percentage. -/
noncomputable def estimate_completion_rate (params : ParameterConstraints) : ℝ :=
  let d := params.d
  let base_completion : ℝ := 0.95
  let difficulty_factor : ℝ := 1.0 - d / 1000
  let completion_rate := base_completion * max 0.7 difficulty_factor
  max 0 (min 100 (completion_rate * 100))

open Classical in
/-- `ParameterValidator.validate_all`: runs the six checks, collects flags,
errors, warnings and intermediate values; `valid` is true exactly when no
check contributed an error. -/
noncomputable def validate_all (params : ParameterConstraints) : ParameterValidationResult :=
  let errors := errorsOf params
  { valid := errors = []
    errors := errors
    warnings := (check_constraint_1 params).warning.toList ++
      (check_constraint_2 params).warning.toList ++ (check_constraint_3 params).warning.toList ++
      (check_constraint_4 params).warning.toList ++ (check_constraint_5 params).warning.toList ++
      (check_constraint_6 params).warning.toList
    constraint_1_satisfied := (check_constraint_1 params).satisfied
    constraint_2_satisfied := (check_constraint_2 params).satisfied
    constraint_3_satisfied := (check_constraint_3 params).satisfied
    constraint_4_satisfied := (check_constraint_4 params).satisfied
    constraint_5_satisfied := (check_constraint_5 params).satisfied
    constraint_6_satisfied := (check_constraint_6 params).satisfied
    calculated_values := (check_constraint_1 params).calculated ++
      (check_constraint_2 params).calculated ++ (check_constraint_3 params).calculated ++
      (check_constraint_4 params).calculated ++ (check_constraint_5 params).calculated ++
      (check_constraint_6 params).calculated
    estimated_sybil_resistance :=
      if errors = [] then some (estimate_sybil_resistance params) else none
    estimated_completion_rate :=
      if errors = [] then some (estimate_completion_rate params) else none }

/-! ### Parameter calculator — backend/app/services/parameter_calculator.py -/

/-- Optional overrides (`custom_constraints` dict with keys
d / kappa / eta_v / eta_e). -/
structure CustomConstraints where
  d : Option ℝ := none
  kappa : Option ℤ := none
  eta_v : Option ℝ := none
  eta_e : Option ℝ := none

open Classical in
/-- Body of `calculate_for_security_level` after the base values for the
tier have been selected (and overridden): raise `d` for constraints 5 and 3
with a 10% margin, then shrink `eta_e` for constraint 4 with a 10% margin,
and build the `ParameterConstraints` model. -/
noncomputable def calcCore (m : ℤ) (base_d : ℝ) (base_kappa : ℤ)
    (base_eta_v base_eta_e : ℝ) : Except String ParameterConstraints :=
  let min_d_constraint_5 := 2 * Real.log (m : ℝ) / (0.5 - base_eta_v)
  let d0 := max base_d (min_d_constraint_5 * 1.1)
  let denominator := 2 * Real.log (m : ℝ) - 2
  let d := if 0 < denominator then max d0 (denominator / (0.5 - base_eta_v) * 1.1) else d0
  let b := if 0 < denominator then Real.sqrt (d * (0.5 - base_eta_v) / denominator) else 1.0
  let eta_e := if 1 < b then min base_eta_e ((b - 1) * (0.5 - base_eta_v) / b * 0.9)
    else base_eta_e
  mkParameterConstraints m d base_kappa base_eta_v eta_e

open Classical in
/-- `ParameterCalculator.calculate_for_security_level`. -/
noncomputable def calculate_for_security_level (m : ℤ) (security_level : String)
    (custom_constraints : Option CustomConstraints) : Except String ParameterConstraints :=
  if m < 10 then .error "Need at least 10 participants"
  else if security_level = "high" ∨ security_level = "medium" ∨ security_level = "low" then
    let base_d : ℝ := if security_level = "high" then 80
      else if security_level = "medium" then 60 else 40
    let base_kappa : ℤ := if security_level = "high" then 80
      else if security_level = "medium" then 40 else 20
    let base_eta_v : ℝ := if security_level = "high" then 0.01
      else if security_level = "medium" then 0.025 else 0.05
    let base_eta_e : ℝ := if security_level = "high" then 0.1
      else if security_level = "medium" then 0.125 else 0.15
    match custom_constraints with
    | none => calcCore m base_d base_kappa base_eta_v base_eta_e
    | some c => calcCore m (c.d.getD base_d) (c.kappa.getD base_kappa)
        (c.eta_v.getD base_eta_v) (c.eta_e.getD base_eta_e)
  else .error "Unknown security level"

/-- Proposition transformer for `Except`: the computation succeeded and its
value satisfies `P`. -/
def ExceptOk {ε α : Type _} (e : Except ε α) (P : α → Prop) : Prop :=
  match e with
  | .ok a => P a
  | .error _ => False

theorem ExceptOk_ok {ε α : Type _} {a : α} {P : α → Prop} :
    ExceptOk (ε := ε) (.ok a) P ↔ P a := Iff.rfl

theorem validate_all_valid (pr : ParameterConstraints) :
    (validate_all pr).valid = (errorsOf pr = []) := rfl

theorem validate_all_errors (pr : ParameterConstraints) :
    (validate_all pr).errors = errorsOf pr := rfl

theorem check1_error_none {pr : ParameterConstraints}
    (h : (pr.kappa : ℝ) + (pr.eta_v * (pr.m : ℝ) + 2) * Real.log (pr.m : ℝ)
        + pr.eta_v * (pr.m : ℝ) ≤ (pr.m : ℝ)) :
    (check_constraint_1 pr).error = none := by
  simp only [check_constraint_1]
  rw [if_pos h]

theorem check1_error_some {pr : ParameterConstraints}
    (h : (pr.m : ℝ) < (pr.kappa : ℝ) + (pr.eta_v * (pr.m : ℝ) + 2) * Real.log (pr.m : ℝ)
        + pr.eta_v * (pr.m : ℝ)) :
    (check_constraint_1 pr).error = some "Constraint 1: Insufficient participants" := by
  simp only [check_constraint_1]
  rw [if_neg (not_le.mpr h)]

theorem check2_error_none {pr : ParameterConstraints}
    (hp : pr.p = some (pr.d / (pr.m : ℝ))) (hm : (0:ℝ) < (pr.m : ℝ))
    (hdm : pr.d ≤ (pr.m : ℝ)) :
    (check_constraint_2 pr).error = none := by
  simp only [check_constraint_2, hp]
  rw [ite_self]
  rw [if_neg (lt_irrefl _), if_neg (not_lt.mpr ((div_le_one hm).mpr hdm))]

theorem check3_error_none {pr : ParameterConstraints}
    (hm : 1 < pr.m) (hdenom : 0 < 2 * Real.log (pr.m : ℝ) - 2)
    (hnum : 0 < pr.d * (0.5 - pr.eta_v))
    (hb : 1 ≤ Real.sqrt (pr.d * (0.5 - pr.eta_v) / (2 * Real.log (pr.m : ℝ) - 2))) :
    (check_constraint_3 pr).error = none := by
  simp only [check_constraint_3]
  rw [if_neg (not_le.mpr hm), if_neg (not_le.mpr hdenom), if_neg (not_le.mpr hnum),
      if_pos hb]

theorem check4_error_none {pr : ParameterConstraints}
    (hdenom : 0 < 2 * Real.log (pr.m : ℝ) - 2)
    (hb : ¬ Real.sqrt (pr.d * (0.5 - pr.eta_v) / (2 * Real.log (pr.m : ℝ) - 2)) < 1)
    (hsat : pr.eta_e <
      (Real.sqrt (pr.d * (0.5 - pr.eta_v) / (2 * Real.log (pr.m : ℝ) - 2)) - 1)
        * (0.5 - pr.eta_v)
        / Real.sqrt (pr.d * (0.5 - pr.eta_v) / (2 * Real.log (pr.m : ℝ) - 2))) :
    (check_constraint_4 pr).error = none := by
  simp only [check_constraint_4]
  rw [if_neg (not_le.mpr hdenom), if_neg hb, if_pos hsat]

theorem check5_error_none {pr : ParameterConstraints}
    (hm : 1 < pr.m) (hβ : 0 < 0.5 - pr.eta_v)
    (h : 2 * Real.log (pr.m : ℝ) / (0.5 - pr.eta_v) ≤ pr.d) :
    (check_constraint_5 pr).error = none := by
  simp only [check_constraint_5]
  rw [if_neg (not_le.mpr hm), if_neg (not_le.mpr hβ), if_pos h]

theorem check6_error_none {pr : ParameterConstraints}
    (hm : (0:ℝ) < (pr.m : ℝ)) (hd : 0 < pr.d) :
    (check_constraint_6 pr).error = none := by
  simp only [check_constraint_6]
  have hne : ¬ (0.1 * (pr.m : ℝ) * pr.d = 0) := by positivity
  rw [if_neg hne]
  have hc : pr.d / (0.1 * (pr.m : ℝ) * pr.d / (pr.m : ℝ)) = 10 := by
    field_simp
    ring
  rw [hc, if_pos (by norm_num)]

theorem errorsOf_eq_nil {pr : ParameterConstraints}
    (h1 : (check_constraint_1 pr).error = none)
    (h2 : (check_constraint_2 pr).error = none)
    (h3 : (check_constraint_3 pr).error = none)
    (h4 : (check_constraint_4 pr).error = none)
    (h5 : (check_constraint_5 pr).error = none)
    (h6 : (check_constraint_6 pr).error = none) :
    errorsOf pr = [] := by
  simp [errorsOf, h1, h2, h3, h4, h5, h6]

theorem mkParameterConstraints_ok (m : ℤ) (d : ℝ) (κ : ℤ) (ηV ηE : ℝ)
    (hm : 0 < m) (hd : 0 < d) (hκ1 : 20 ≤ κ) (hκ2 : κ ≤ 128)
    (hv1 : 0 < ηV) (hv2 : ηV < 0.1) (he1 : 0 < ηE) (he2 : ηE < 0.5) :
    mkParameterConstraints m d κ ηV ηE =
      .ok ⟨m, d, κ, ηV, ηE, some (d / (m : ℝ)), calculate_b m d ηV⟩ := by
  unfold mkParameterConstraints
  rw [if_neg (by omega), if_neg (by linarith), if_neg (by omega), if_neg (by omega),
      if_neg (by linarith), if_neg (by linarith), if_neg (by linarith), if_neg (by linarith)]

theorem calcCore_eq (m : ℤ) (bd : ℝ) (κ : ℤ) (ηV ηE : ℝ)
    (hden : 0 < 2 * Real.log (m : ℝ) - 2)
    (hb1 : 1 < Real.sqrt
      (max (max bd (2 * Real.log (m : ℝ) / (0.5 - ηV) * 1.1))
          ((2 * Real.log (m : ℝ) - 2) / (0.5 - ηV) * 1.1)
        * (0.5 - ηV) / (2 * Real.log (m : ℝ) - 2))) :
    calcCore m bd κ ηV ηE =
      mkParameterConstraints m
        (max (max bd (2 * Real.log (m : ℝ) / (0.5 - ηV) * 1.1))
          ((2 * Real.log (m : ℝ) - 2) / (0.5 - ηV) * 1.1))
        κ ηV
        (min ηE
          ((Real.sqrt
              (max (max bd (2 * Real.log (m : ℝ) / (0.5 - ηV) * 1.1))
                  ((2 * Real.log (m : ℝ) - 2) / (0.5 - ηV) * 1.1)
                * (0.5 - ηV) / (2 * Real.log (m : ℝ) - 2)) - 1)
            * (0.5 - ηV)
            / Real.sqrt
              (max (max bd (2 * Real.log (m : ℝ) / (0.5 - ηV) * 1.1))
                  ((2 * Real.log (m : ℝ) - 2) / (0.5 - ηV) * 1.1)
                * (0.5 - ηV) / (2 * Real.log (m : ℝ) - 2)) * 0.9)) := by
  simp only [calcCore]
  rw [if_pos hden, if_pos hden, if_pos hb1]

theorem b_gt_one_of_max (bd : ℝ) (L ηV : ℝ)
    (hden : 0 < 2 * L - 2) (hβ : 0 < 0.5 - ηV) :
    1 < Real.sqrt
      (max (max bd (2 * L / (0.5 - ηV) * 1.1)) ((2 * L - 2) / (0.5 - ηV) * 1.1)
        * (0.5 - ηV) / (2 * L - 2)) := by
  have hD3 : (2 * L - 2) / (0.5 - ηV) * 1.1 ≤
      max (max bd (2 * L / (0.5 - ηV) * 1.1)) ((2 * L - 2) / (0.5 - ηV) * 1.1) :=
    le_max_right _ _
  have harg : 1 <
      max (max bd (2 * L / (0.5 - ηV) * 1.1)) ((2 * L - 2) / (0.5 - ηV) * 1.1)
        * (0.5 - ηV) / (2 * L - 2) := by
    rw [lt_div_iff₀ hden]
    have h1 : (2 * L - 2) / (0.5 - ηV) * 1.1 * (0.5 - ηV) = (2 * L - 2) * 1.1 := by
      field_simp
    nlinarith [mul_le_mul_of_nonneg_right hD3 (le_of_lt hβ)]
  calc (1:ℝ) = Real.sqrt 1 := by simp
  _ < _ := Real.sqrt_lt_sqrt (by norm_num) harg


theorem validator_passes (m : ℤ) (D : ℝ) (κ : ℤ) (ηV E : ℝ) (bOpt : Option ℝ)
    (hm1 : 1 < m) (hL : 1 < Real.log (m : ℝ)) (hβ : 0 < 0.5 - ηV) (hD0 : 0 < D)
    (Hc1 : (κ : ℝ) + (ηV * (m : ℝ) + 2) * Real.log (m : ℝ) + ηV * (m : ℝ) ≤ (m : ℝ))
    (HDm : D ≤ (m : ℝ))
    (Hb : 1 ≤ Real.sqrt (D * (0.5 - ηV) / (2 * Real.log (m : ℝ) - 2)))
    (HE : E < (Real.sqrt (D * (0.5 - ηV) / (2 * Real.log (m : ℝ) - 2)) - 1) * (0.5 - ηV)
        / Real.sqrt (D * (0.5 - ηV) / (2 * Real.log (m : ℝ) - 2)))
    (H5 : 2 * Real.log (m : ℝ) / (0.5 - ηV) ≤ D) :
    (validate_all ⟨m, D, κ, ηV, E, some (D / (m : ℝ)), bOpt⟩).valid ∧
      (validate_all ⟨m, D, κ, ηV, E, some (D / (m : ℝ)), bOpt⟩).errors = [] := by
  have hden : 0 < 2 * Real.log (m : ℝ) - 2 := by linarith
  have hm0 : (0:ℝ) < (m : ℝ) := by exact_mod_cast (by omega : (0:ℤ) < m)
  have hnil : errorsOf ⟨m, D, κ, ηV, E, some (D / (m : ℝ)), bOpt⟩ = [] :=
    errorsOf_eq_nil (check1_error_none Hc1) (check2_error_none rfl hm0 HDm)
      (check3_error_none hm1 hden (by positivity) Hb)
      (check4_error_none hden (not_lt.mpr Hb) HE)
      (check5_error_none hm1 hβ H5) (check6_error_none hm0 hD0)
  exact ⟨by rw [validate_all_valid]; exact hnil, by rw [validate_all_errors]; exact hnil⟩

theorem validator_fails_c1 (m : ℤ) (D : ℝ) (κ : ℤ) (ηV E : ℝ) (pOpt bOpt : Option ℝ)
    (Hc1 : (m : ℝ) < (κ : ℝ) + (ηV * (m : ℝ) + 2) * Real.log (m : ℝ) + ηV * (m : ℝ)) :
    ¬ (validate_all ⟨m, D, κ, ηV, E, pOpt, bOpt⟩).valid ∧
      (validate_all ⟨m, D, κ, ηV, E, pOpt, bOpt⟩).errors ≠ [] := by
  have h1 : (check_constraint_1 ⟨m, D, κ, ηV, E, pOpt, bOpt⟩).error =
      some "Constraint 1: Insufficient participants" := check1_error_some Hc1
  have hne : errorsOf ⟨m, D, κ, ηV, E, pOpt, bOpt⟩ ≠ [] := by
    rw [errorsOf, h1]
    simp
  exact ⟨by rw [validate_all_valid]; exact hne, by rw [validate_all_errors]; exact hne⟩

theorem min_point_nine_lt {x u : ℝ} (hu : 0 < u) : min x (u * 0.9) < u :=
  lt_of_le_of_lt (min_le_right _ _) (by nlinarith)

theorem min_point_nine_pos {x u : ℝ} (hx : 0 < x) (hu : 0 < u) : 0 < min x (u * 0.9) :=
  lt_min hx (by nlinarith)

theorem u_pos {b β : ℝ} (hb : 1 < b) (hβ : 0 < β) : 0 < (b - 1) * β / b :=
  div_pos (mul_pos (by linarith) hβ) (by linarith)

theorem calcCore_valid (m : ℤ) (bd : ℝ) (κ : ℤ) (ηV ηE : ℝ)
    (hm1 : 1 < m) (hL : 1 < Real.log (m : ℝ))
    (hbd : 0 < bd) (hκ1 : 20 ≤ κ) (hκ2 : κ ≤ 128)
    (hv1 : 0 < ηV) (hv2 : ηV < 0.1) (he1 : 0 < ηE) (he2 : ηE < 0.5)
    (Hc1 : (κ : ℝ) + (ηV * (m : ℝ) + 2) * Real.log (m : ℝ) + ηV * (m : ℝ) ≤ (m : ℝ))
    (Hc2 : max (max bd (2 * Real.log (m : ℝ) / (0.5 - ηV) * 1.1))
        ((2 * Real.log (m : ℝ) - 2) / (0.5 - ηV) * 1.1) ≤ (m : ℝ)) :
    ExceptOk (calcCore m bd κ ηV ηE)
      (fun pr => (validate_all pr).valid ∧ (validate_all pr).errors = []) := by
  have hβ : 0 < 0.5 - ηV := by linarith
  have hden : 0 < 2 * Real.log (m : ℝ) - 2 := by linarith
  have hb1 := b_gt_one_of_max bd (Real.log (m : ℝ)) ηV hden hβ
  have hD0 : 0 < max (max bd (2 * Real.log (m : ℝ) / (0.5 - ηV) * 1.1))
      ((2 * Real.log (m : ℝ) - 2) / (0.5 - ηV) * 1.1) :=
    lt_of_lt_of_le hbd ((le_max_left _ _).trans (le_max_left _ _))
  have h2L : 0 < 2 * Real.log (m : ℝ) / (0.5 - ηV) := div_pos (by linarith) hβ
  have H5 : 2 * Real.log (m : ℝ) / (0.5 - ηV) ≤
      max (max bd (2 * Real.log (m : ℝ) / (0.5 - ηV) * 1.1))
        ((2 * Real.log (m : ℝ) - 2) / (0.5 - ηV) * 1.1) :=
    le_trans (by nlinarith) ((le_max_right _ _).trans (le_max_left _ _))
  rw [calcCore_eq m bd κ ηV ηE hden hb1,
      mkParameterConstraints_ok _ _ _ _ _ (by omega) hD0 hκ1 hκ2 hv1 hv2
        (min_point_nine_pos he1 (u_pos hb1 hβ)) (lt_of_le_of_lt (min_le_left _ _) he2),
      ExceptOk_ok]
  exact validator_passes m _ κ ηV _ _ hm1 hL hβ hD0 Hc1 Hc2 hb1.le
    (min_point_nine_lt (u_pos hb1 hβ)) H5

theorem calcCore_invalid (m : ℤ) (bd : ℝ) (κ : ℤ) (ηV ηE : ℝ)
    (hm1 : 1 < m) (hL : 1 < Real.log (m : ℝ))
    (hbd : 0 < bd) (hκ1 : 20 ≤ κ) (hκ2 : κ ≤ 128)
    (hv1 : 0 < ηV) (hv2 : ηV < 0.1) (he1 : 0 < ηE) (he2 : ηE < 0.5)
    (Hc1 : (m : ℝ) < (κ : ℝ) + (ηV * (m : ℝ) + 2) * Real.log (m : ℝ) + ηV * (m : ℝ)) :
    ExceptOk (calcCore m bd κ ηV ηE)
      (fun pr => ¬ (validate_all pr).valid ∧ (validate_all pr).errors ≠ []) := by
  have hβ : 0 < 0.5 - ηV := by linarith
  have hden : 0 < 2 * Real.log (m : ℝ) - 2 := by linarith
  have hb1 := b_gt_one_of_max bd (Real.log (m : ℝ)) ηV hden hβ
  have hD0 : 0 < max (max bd (2 * Real.log (m : ℝ) / (0.5 - ηV) * 1.1))
      ((2 * Real.log (m : ℝ) - 2) / (0.5 - ηV) * 1.1) :=
    lt_of_lt_of_le hbd ((le_max_left _ _).trans (le_max_left _ _))
  rw [calcCore_eq m bd κ ηV ηE hden hb1,
      mkParameterConstraints_ok _ _ _ _ _ (by omega) hD0 hκ1 hκ2 hv1 hv2
        (min_point_nine_pos he1 (u_pos hb1 hβ)) (lt_of_le_of_lt (min_le_left _ _) he2),
      ExceptOk_ok]
  exact validator_fails_c1 m _ κ ηV _ _ _ Hc1

theorem calc_level_high (m : ℤ) (hm : ¬ m < 10) :
    calculate_for_security_level m "high" none = calcCore m 80 80 0.01 0.1 := by
  unfold calculate_for_security_level
  rw [if_neg hm]
  simp

theorem calc_level_medium (m : ℤ) (hm : ¬ m < 10) :
    calculate_for_security_level m "medium" none = calcCore m 60 40 0.025 0.125 := by
  unfold calculate_for_security_level
  rw [if_neg hm]
  simp

theorem calc_level_low (m : ℤ) (hm : ¬ m < 10) :
    calculate_for_security_level m "low" none = calcCore m 40 20 0.05 0.15 := by
  unfold calculate_for_security_level
  rw [if_neg hm]
  simp

theorem calcValid_low_50 :
    ExceptOk (calculate_for_security_level 50 "low" none)
      (fun pr => (validate_all pr).valid ∧ (validate_all pr).errors = []) := by
  rw [calc_level_low 50 (by norm_num)]
  have hU : Real.log ((50:ℤ):ℝ) ≤ 4 := by push_cast; exact log_50_le_4
  have hL : (1:ℝ) < Real.log ((50:ℤ):ℝ) := by push_cast; exact one_lt_log_50
  exact calcCore_valid 50 40 20 0.05 0.15 (by norm_num) hL (by norm_num) (by norm_num)
    (by norm_num) (by norm_num) (by norm_num) (by norm_num) (by norm_num)
    (by push_cast at hU hL ⊢; linarith)
    (by push_cast at hU hL ⊢
        refine max_le (max_le (by norm_num) ?_) ?_ <;> · norm_num; linarith)

theorem calcValid_high_200 :
    ExceptOk (calculate_for_security_level 200 "high" none)
      (fun pr => (validate_all pr).valid ∧ (validate_all pr).errors = []) := by
  rw [calc_level_high 200 (by norm_num)]
  have hU : Real.log ((200:ℤ):ℝ) ≤ 6 := by push_cast; exact log_200_le_6
  have hL : (1:ℝ) < Real.log ((200:ℤ):ℝ) := by push_cast; exact one_lt_log_200
  exact calcCore_valid 200 80 80 0.01 0.1 (by norm_num) hL (by norm_num) (by norm_num)
    (by norm_num) (by norm_num) (by norm_num) (by norm_num) (by norm_num)
    (by push_cast at hU hL ⊢; linarith)
    (by push_cast at hU hL ⊢
        refine max_le (max_le (by norm_num) ?_) ?_ <;> · norm_num; linarith)

theorem calcValid_medium_200 :
    ExceptOk (calculate_for_security_level 200 "medium" none)
      (fun pr => (validate_all pr).valid ∧ (validate_all pr).errors = []) := by
  rw [calc_level_medium 200 (by norm_num)]
  have hU : Real.log ((200:ℤ):ℝ) ≤ 6 := by push_cast; exact log_200_le_6
  have hL : (1:ℝ) < Real.log ((200:ℤ):ℝ) := by push_cast; exact one_lt_log_200
  exact calcCore_valid 200 60 40 0.025 0.125 (by norm_num) hL (by norm_num) (by norm_num)
    (by norm_num) (by norm_num) (by norm_num) (by norm_num) (by norm_num)
    (by push_cast at hU hL ⊢; linarith)
    (by push_cast at hU hL ⊢
        refine max_le (max_le (by norm_num) ?_) ?_ <;> · norm_num; linarith)

theorem calcValid_low_200 :
    ExceptOk (calculate_for_security_level 200 "low" none)
      (fun pr => (validate_all pr).valid ∧ (validate_all pr).errors = []) := by
  rw [calc_level_low 200 (by norm_num)]
  have hU : Real.log ((200:ℤ):ℝ) ≤ 6 := by push_cast; exact log_200_le_6
  have hL : (1:ℝ) < Real.log ((200:ℤ):ℝ) := by push_cast; exact one_lt_log_200
  exact calcCore_valid 200 40 20 0.05 0.15 (by norm_num) hL (by norm_num) (by norm_num)
    (by norm_num) (by norm_num) (by norm_num) (by norm_num) (by norm_num)
    (by push_cast at hU hL ⊢; linarith)
    (by push_cast at hU hL ⊢
        refine max_le (max_le (by norm_num) ?_) ?_ <;> · norm_num; linarith)

theorem calcValid_high_1000 :
    ExceptOk (calculate_for_security_level 1000 "high" none)
      (fun pr => (validate_all pr).valid ∧ (validate_all pr).errors = []) := by
  rw [calc_level_high 1000 (by norm_num)]
  have hU : Real.log ((1000:ℤ):ℝ) ≤ 8 := by push_cast; exact log_1000_le_8
  have hL : (1:ℝ) < Real.log ((1000:ℤ):ℝ) := by push_cast; exact one_lt_log_1000
  exact calcCore_valid 1000 80 80 0.01 0.1 (by norm_num) hL (by norm_num) (by norm_num)
    (by norm_num) (by norm_num) (by norm_num) (by norm_num) (by norm_num)
    (by push_cast at hU hL ⊢; linarith)
    (by push_cast at hU hL ⊢
        refine max_le (max_le (by norm_num) ?_) ?_ <;> · norm_num; linarith)

theorem calcValid_medium_1000 :
    ExceptOk (calculate_for_security_level 1000 "medium" none)
      (fun pr => (validate_all pr).valid ∧ (validate_all pr).errors = []) := by
  rw [calc_level_medium 1000 (by norm_num)]
  have hU : Real.log ((1000:ℤ):ℝ) ≤ 8 := by push_cast; exact log_1000_le_8
  have hL : (1:ℝ) < Real.log ((1000:ℤ):ℝ) := by push_cast; exact one_lt_log_1000
  exact calcCore_valid 1000 60 40 0.025 0.125 (by norm_num) hL (by norm_num) (by norm_num)
    (by norm_num) (by norm_num) (by norm_num) (by norm_num) (by norm_num)
    (by push_cast at hU hL ⊢; linarith)
    (by push_cast at hU hL ⊢
        refine max_le (max_le (by norm_num) ?_) ?_ <;> · norm_num; linarith)

theorem calcValid_low_1000 :
    ExceptOk (calculate_for_security_level 1000 "low" none)
      (fun pr => (validate_all pr).valid ∧ (validate_all pr).errors = []) := by
  rw [calc_level_low 1000 (by norm_num)]
  have hU : Real.log ((1000:ℤ):ℝ) ≤ 8 := by push_cast; exact log_1000_le_8
  have hL : (1:ℝ) < Real.log ((1000:ℤ):ℝ) := by push_cast; exact one_lt_log_1000
  exact calcCore_valid 1000 40 20 0.05 0.15 (by norm_num) hL (by norm_num) (by norm_num)
    (by norm_num) (by norm_num) (by norm_num) (by norm_num) (by norm_num)
    (by push_cast at hU hL ⊢; linarith)
    (by push_cast at hU hL ⊢
        refine max_le (max_le (by norm_num) ?_) ?_ <;> · norm_num; linarith)

theorem calcValid_high_10000 :
    ExceptOk (calculate_for_security_level 10000 "high" none)
      (fun pr => (validate_all pr).valid ∧ (validate_all pr).errors = []) := by
  rw [calc_level_high 10000 (by norm_num)]
  have hU : Real.log ((10000:ℤ):ℝ) ≤ 10 := by push_cast; exact log_10000_le_10
  have hL : (1:ℝ) < Real.log ((10000:ℤ):ℝ) := by push_cast; exact one_lt_log_10000
  exact calcCore_valid 10000 80 80 0.01 0.1 (by norm_num) hL (by norm_num) (by norm_num)
    (by norm_num) (by norm_num) (by norm_num) (by norm_num) (by norm_num)
    (by push_cast at hU hL ⊢; linarith)
    (by push_cast at hU hL ⊢
        refine max_le (max_le (by norm_num) ?_) ?_ <;> · norm_num; linarith)

theorem calcValid_medium_10000 :
    ExceptOk (calculate_for_security_level 10000 "medium" none)
      (fun pr => (validate_all pr).valid ∧ (validate_all pr).errors = []) := by
  rw [calc_level_medium 10000 (by norm_num)]
  have hU : Real.log ((10000:ℤ):ℝ) ≤ 10 := by push_cast; exact log_10000_le_10
  have hL : (1:ℝ) < Real.log ((10000:ℤ):ℝ) := by push_cast; exact one_lt_log_10000
  exact calcCore_valid 10000 60 40 0.025 0.125 (by norm_num) hL (by norm_num) (by norm_num)
    (by norm_num) (by norm_num) (by norm_num) (by norm_num) (by norm_num)
    (by push_cast at hU hL ⊢; linarith)
    (by push_cast at hU hL ⊢
        refine max_le (max_le (by norm_num) ?_) ?_ <;> · norm_num; linarith)

theorem calcValid_low_10000 :
    ExceptOk (calculate_for_security_level 10000 "low" none)
      (fun pr => (validate_all pr).valid ∧ (validate_all pr).errors = []) := by
  rw [calc_level_low 10000 (by norm_num)]
  have hU : Real.log ((10000:ℤ):ℝ) ≤ 10 := by push_cast; exact log_10000_le_10
  have hL : (1:ℝ) < Real.log ((10000:ℤ):ℝ) := by push_cast; exact one_lt_log_10000
  exact calcCore_valid 10000 40 20 0.05 0.15 (by norm_num) hL (by norm_num) (by norm_num)
    (by norm_num) (by norm_num) (by norm_num) (by norm_num) (by norm_num)
    (by push_cast at hU hL ⊢; linarith)
    (by push_cast at hU hL ⊢
        refine max_le (max_le (by norm_num) ?_) ?_ <;> · norm_num; linarith)

theorem calcInvalid_high_20 :
    ExceptOk (calculate_for_security_level 20 "high" none)
      (fun pr => ¬ (validate_all pr).valid ∧ (validate_all pr).errors ≠ []) := by
  rw [calc_level_high 20 (by norm_num)]
  have hL : (1:ℝ) < Real.log ((20:ℤ):ℝ) := by push_cast; exact one_lt_log_20
  exact calcCore_invalid 20 80 80 0.01 0.1 (by norm_num) hL (by norm_num) (by norm_num)
    (by norm_num) (by norm_num) (by norm_num) (by norm_num) (by norm_num)
    (by push_cast at hL ⊢; norm_num; linarith)

theorem calcInvalid_medium_20 :
    ExceptOk (calculate_for_security_level 20 "medium" none)
      (fun pr => ¬ (validate_all pr).valid ∧ (validate_all pr).errors ≠ []) := by
  rw [calc_level_medium 20 (by norm_num)]
  have hL : (1:ℝ) < Real.log ((20:ℤ):ℝ) := by push_cast; exact one_lt_log_20
  exact calcCore_invalid 20 60 40 0.025 0.125 (by norm_num) hL (by norm_num) (by norm_num)
    (by norm_num) (by norm_num) (by norm_num) (by norm_num) (by norm_num)
    (by push_cast at hL ⊢; norm_num; linarith)

theorem calcInvalid_low_20 :
    ExceptOk (calculate_for_security_level 20 "low" none)
      (fun pr => ¬ (validate_all pr).valid ∧ (validate_all pr).errors ≠ []) := by
  rw [calc_level_low 20 (by norm_num)]
  have hL : (1:ℝ) < Real.log ((20:ℤ):ℝ) := by push_cast; exact one_lt_log_20
  exact calcCore_invalid 20 40 20 0.05 0.15 (by norm_num) hL (by norm_num) (by norm_num)
    (by norm_num) (by norm_num) (by norm_num) (by norm_num) (by norm_num)
    (by push_cast at hL ⊢; norm_num; linarith)

theorem calcInvalid_high_50 :
    ExceptOk (calculate_for_security_level 50 "high" none)
      (fun pr => ¬ (validate_all pr).valid ∧ (validate_all pr).errors ≠ []) := by
  rw [calc_level_high 50 (by norm_num)]
  have hL : (1:ℝ) < Real.log ((50:ℤ):ℝ) := by push_cast; exact one_lt_log_50
  exact calcCore_invalid 50 80 80 0.01 0.1 (by norm_num) hL (by norm_num) (by norm_num)
    (by norm_num) (by norm_num) (by norm_num) (by norm_num) (by norm_num)
    (by push_cast at hL ⊢; norm_num; linarith)

theorem calcInvalid_medium_50 :
    ExceptOk (calculate_for_security_level 50 "medium" none)
      (fun pr => ¬ (validate_all pr).valid ∧ (validate_all pr).errors ≠ []) := by
  rw [calc_level_medium 50 (by norm_num)]
  have hL : (1:ℝ) < Real.log ((50:ℤ):ℝ) := by push_cast; exact one_lt_log_50
  have hG : (27:ℝ)/10 ≤ Real.log ((50:ℤ):ℝ) := by push_cast; exact log_50_ge
  exact calcCore_invalid 50 60 40 0.025 0.125 (by norm_num) hL (by norm_num) (by norm_num)
    (by norm_num) (by norm_num) (by norm_num) (by norm_num) (by norm_num)
    (by push_cast at hL hG ⊢; norm_num; linarith)

theorem ExceptOk_imp {ε α : Type _} {e : Except ε α} {P Q : α → Prop}
    (h : ∀ a, P a → Q a) : ExceptOk e P → ExceptOk e Q := by
  cases e with
  | error e => exact id
  | ok a => exact h a

/-- Claim C1, counterexample: for population size 20 and tier "high" the
calculator succeeds but its output does NOT validate — `validate_all`
reports `valid = False` (constraint 1 needs `m ≥ κ + (ηV·m+2)·ln m + ηV·m`
and the calculator never adjusts `κ` or `m`, so `m = 20 < 80 + …`).  This
refutes the claim that every tier/size combination in the stated grid
validates. -/
theorem spec_c1_counterexample :
    ExceptOk (calculate_for_security_level 20 "high" none)
      (fun pr => ¬ (validate_all pr).valid) :=
  ExceptOk_imp (fun _ h => h.1) calcInvalid_high_20

/-- Claim C1, amended: the `ParameterSet` returned by
`calculate_for_security_level(m, tier)` with no custom overrides passes
`validate_all` (with `valid = true` and an empty error list) for every tier
at m ∈ {200, 1000, 10000} and for the "low" tier at m = 50; for the
remaining tier/size combinations of the claimed grid (every tier at m = 20
and the "high" and "medium" tiers at m = 50) the calculator succeeds but
validation fails with `valid = false` and a non-empty error list. -/
theorem spec_c1_amended :
    (ExceptOk (calculate_for_security_level 200 "high" none)
      (fun pr => (validate_all pr).valid ∧ (validate_all pr).errors = []) ∧
     ExceptOk (calculate_for_security_level 200 "medium" none)
      (fun pr => (validate_all pr).valid ∧ (validate_all pr).errors = []) ∧
     ExceptOk (calculate_for_security_level 200 "low" none)
      (fun pr => (validate_all pr).valid ∧ (validate_all pr).errors = []) ∧
     ExceptOk (calculate_for_security_level 1000 "high" none)
      (fun pr => (validate_all pr).valid ∧ (validate_all pr).errors = []) ∧
     ExceptOk (calculate_for_security_level 1000 "medium" none)
      (fun pr => (validate_all pr).valid ∧ (validate_all pr).errors = []) ∧
     ExceptOk (calculate_for_security_level 1000 "low" none)
      (fun pr => (validate_all pr).valid ∧ (validate_all pr).errors = []) ∧
     ExceptOk (calculate_for_security_level 10000 "high" none)
      (fun pr => (validate_all pr).valid ∧ (validate_all pr).errors = []) ∧
     ExceptOk (calculate_for_security_level 10000 "medium" none)
      (fun pr => (validate_all pr).valid ∧ (validate_all pr).errors = []) ∧
     ExceptOk (calculate_for_security_level 10000 "low" none)
      (fun pr => (validate_all pr).valid ∧ (validate_all pr).errors = []) ∧
     ExceptOk (calculate_for_security_level 50 "low" none)
      (fun pr => (validate_all pr).valid ∧ (validate_all pr).errors = [])) ∧
    (ExceptOk (calculate_for_security_level 20 "high" none)
      (fun pr => ¬ (validate_all pr).valid ∧ (validate_all pr).errors ≠ []) ∧
     ExceptOk (calculate_for_security_level 20 "medium" none)
      (fun pr => ¬ (validate_all pr).valid ∧ (validate_all pr).errors ≠ []) ∧
     ExceptOk (calculate_for_security_level 20 "low" none)
      (fun pr => ¬ (validate_all pr).valid ∧ (validate_all pr).errors ≠ []) ∧
     ExceptOk (calculate_for_security_level 50 "high" none)
      (fun pr => ¬ (validate_all pr).valid ∧ (validate_all pr).errors ≠ []) ∧
     ExceptOk (calculate_for_security_level 50 "medium" none)
      (fun pr => ¬ (validate_all pr).valid ∧ (validate_all pr).errors ≠ [])) :=
  ⟨⟨calcValid_high_200, calcValid_medium_200, calcValid_low_200,
    calcValid_high_1000, calcValid_medium_1000, calcValid_low_1000,
    calcValid_high_10000, calcValid_medium_10000, calcValid_low_10000,
    calcValid_low_50⟩,
   calcInvalid_high_20, calcInvalid_medium_20, calcInvalid_low_20,
   calcInvalid_high_50, calcInvalid_medium_50⟩

/-- Claim C6: for every `ParameterSet` with `m > 1` and `0 < ηV < 0.5`, the
constraint-5 check reports satisfied exactly when `d ≥ 2·ln(m)/(0.5−ηV)`:
degrees strictly below the bound fail, degrees at or above it pass. -/
theorem spec_c6 (pr : ParameterConstraints) (hm : 1 < pr.m)
    (hv1 : 0 < pr.eta_v) (hv2 : pr.eta_v < 0.5) :
    (check_constraint_5 pr).satisfied ↔
      2 * Real.log (pr.m : ℝ) / (0.5 - pr.eta_v) ≤ pr.d := by
  simp only [check_constraint_5]
  rw [if_neg (not_le.mpr hm), if_neg (not_le.mpr (by linarith : (0:ℝ) < 0.5 - pr.eta_v))]

/-- Claim C6, witness: the constraint-5 check evaluated at the documented
example parameters (m = 1000, d = 60, ηV = 0.025). -/
theorem spec_c6_witness :
    (1:ℤ) < 1000 ∧ (0:ℝ) < 0.025 ∧ (0.025:ℝ) < 0.5 ∧
      ((check_constraint_5 ⟨1000, 60, 40, 0.025, 0.125, none, none⟩).satisfied ↔
        2 * Real.log ((1000:ℤ) : ℝ) / (0.5 - 0.025) ≤ 60) :=
  ⟨by norm_num, by norm_num, by norm_num,
   spec_c6 ⟨1000, 60, 40, 0.025, 0.125, none, none⟩ (by norm_num) (by norm_num) (by norm_num)⟩

/-- Claim C10: for every `ParameterSet` with `m > 0` and `d > 0`, the
constraint-6 check always reports satisfied with no error: the
representative adversary holds `a = 0.1·m·d` edges and the computed
advantage `C* = d / (a/m) = d / (0.1·d) = 10`, a constant independent of
all parameters, so the check can never fail. -/
theorem spec_c10 (pr : ParameterConstraints) (hm : 0 < pr.m) (hd : 0 < pr.d) :
    (check_constraint_6 pr).satisfied ∧ (check_constraint_6 pr).error = none ∧
      (check_constraint_6 pr).calculated =
        [("constraint_6_c_star", (10:ℝ)),
         ("constraint_6_typical_a", 0.1 * (pr.m : ℝ) * pr.d)] := by
  have hm0 : (0:ℝ) < (pr.m : ℝ) := by exact_mod_cast hm
  have hne : ¬ (0.1 * (pr.m : ℝ) * pr.d = 0) := by positivity
  have hc : pr.d / (0.1 * (pr.m : ℝ) * pr.d / (pr.m : ℝ)) = 10 := by
    field_simp
    ring
  refine ⟨?_, ?_, ?_⟩
  · simp only [check_constraint_6]
    rw [if_neg hne]
    show (1:ℝ) ≤ pr.d / (0.1 * (pr.m : ℝ) * pr.d / (pr.m : ℝ))
    rw [hc]; norm_num
  · exact check6_error_none hm0 hd
  · simp only [check_constraint_6]
    rw [if_neg hne]
    show [("constraint_6_c_star", pr.d / (0.1 * (pr.m : ℝ) * pr.d / (pr.m : ℝ))),
          ("constraint_6_typical_a", 0.1 * (pr.m : ℝ) * pr.d)] = _
    rw [hc]

/-- Claim C10, witness: the constraint-6 check at m = 1000, d = 60 is
satisfied with no error and advantage exactly 10. -/
theorem spec_c10_witness :
    (0:ℤ) < 1000 ∧ (0:ℝ) < 60 ∧
      ((check_constraint_6 ⟨1000, 60, 40, 0.025, 0.125, none, none⟩).satisfied ∧
       (check_constraint_6 ⟨1000, 60, 40, 0.025, 0.125, none, none⟩).error = none ∧
       (check_constraint_6 ⟨1000, 60, 40, 0.025, 0.125, none, none⟩).calculated =
         [("constraint_6_c_star", (10:ℝ)),
          ("constraint_6_typical_a", 0.1 * ((1000:ℤ) : ℝ) * 60)]) :=
  ⟨by norm_num, by norm_num,
   spec_c10 ⟨1000, 60, 40, 0.025, 0.125, none, none⟩ (by norm_num) (by norm_num)⟩

/-- Claim C8, counterexample: `ParameterConstraints(m=1, d=60, kappa=40,
eta_v=0.025, eta_e=0.125)` is ACCEPTED — pydantic's bound on `m` is
`gt=0`, so `m = 1` passes validation and a fully initialized
`ParameterSet` with `m = 1` is produced, refuting the claim that all
inputs with `m ≤ 1` are rejected at the boundary. -/
theorem spec_c8_counterexample :
    ExceptOk (mkParameterConstraints 1 60 40 0.025 0.125) (fun pr => pr.m = 1) := by
  rw [mkParameterConstraints_ok 1 60 40 0.025 0.125 (by norm_num) (by norm_num)
      (by norm_num) (by norm_num) (by norm_num) (by norm_num) (by norm_num) (by norm_num)]
  exact rfl

/-- Claim C8, amended: constructing a `ParameterSet` with `m ≤ 0`, with
non-positive degree `d`, or with `ηV ≥ 0.5` (in fact any `ηV ≥ 0.1`) is
rejected at the boundary with a descriptive error naming the violated
field bound, and no `ParameterSet` value is produced from such inputs;
however `m = 1` (with the other fields in range) is accepted — the model's
bound is `m > 0`, not `m > 1`. -/
theorem spec_c8_amended :
    (∀ (m : ℤ) (d : ℝ) (κ : ℤ) (ηV ηE : ℝ), m ≤ 0 →
      mkParameterConstraints m d κ ηV ηE =
        .error "m: ensure this value is greater than 0") ∧
    (∀ (m : ℤ) (d : ℝ) (κ : ℤ) (ηV ηE : ℝ), 0 < m → d ≤ 0 →
      mkParameterConstraints m d κ ηV ηE =
        .error "d: ensure this value is greater than 0") ∧
    (∀ (m : ℤ) (d : ℝ) (κ : ℤ) (ηV ηE : ℝ), 0 < m → 0 < d → 20 ≤ κ → κ ≤ 128 →
      0.5 ≤ ηV →
      mkParameterConstraints m d κ ηV ηE =
        .error "eta_v: ensure this value is less than 0.1") ∧
    (∀ (d : ℝ) (κ : ℤ) (ηV ηE : ℝ), 0 < d → 20 ≤ κ → κ ≤ 128 →
      0 < ηV → ηV < 0.1 → 0 < ηE → ηE < 0.5 →
      ExceptOk (mkParameterConstraints 1 d κ ηV ηE) (fun pr => pr.m = 1)) := by
  refine ⟨?_, ?_, ?_, ?_⟩
  · intro m d κ ηV ηE hm
    unfold mkParameterConstraints
    rw [if_pos hm]
  · intro m d κ ηV ηE hm hd
    unfold mkParameterConstraints
    rw [if_neg (not_le.mpr hm), if_pos hd]
  · intro m d κ ηV ηE hm hd hκ1 hκ2 hv
    unfold mkParameterConstraints
    rw [if_neg (not_le.mpr hm), if_neg (not_le.mpr hd), if_neg (by omega),
        if_neg (by omega), if_neg (not_le.mpr (by linarith)), if_pos (by linarith)]
  · intro d κ ηV ηE hd hκ1 hκ2 hv1 hv2 he1 he2
    rw [mkParameterConstraints_ok 1 d κ ηV ηE (by norm_num) hd hκ1 hκ2 hv1 hv2 he1 he2]
    exact rfl

/-- Claim C8, witness: the amended statement applied at concrete inputs
(m = 0 rejected; d = −1 rejected; ηV = 0.5 rejected; m = 1 accepted). -/
theorem spec_c8_witness :
    (mkParameterConstraints 0 60 40 0.025 0.125 =
      .error "m: ensure this value is greater than 0") ∧
    (mkParameterConstraints 5 (-1) 40 0.025 0.125 =
      .error "d: ensure this value is greater than 0") ∧
    (mkParameterConstraints 5 60 40 0.5 0.125 =
      .error "eta_v: ensure this value is less than 0.1") ∧
    ExceptOk (mkParameterConstraints 1 7 20 0.05 0.2) (fun pr => pr.m = 1) :=
  ⟨spec_c8_amended.1 0 60 40 0.025 0.125 (by norm_num),
   spec_c8_amended.2.1 5 (-1) 40 0.025 0.125 (by norm_num) (by norm_num),
   spec_c8_amended.2.2.1 5 60 40 0.5 0.125 (by norm_num) (by norm_num) (by norm_num)
     (by norm_num) (by norm_num),
   spec_c8_amended.2.2.2 7 20 0.05 0.2 (by norm_num) (by norm_num) (by norm_num)
     (by norm_num) (by norm_num) (by norm_num) (by norm_num)⟩

/-! ### Sybil bound — backend/app/services/sybil_bounds.py

`SybilBoundCalculator` reads the `networkx` graph only through
`number_of_nodes()`, `number_of_edges()` and the honest/deleted node
attributes; the graph is therefore represented here by those three
numbers: `m`, `n_edges` and `honest_n` (the count of nodes that are
honest and not deleted).  `compute_sybil_bound` can raise on two input
families, so it is embedded as an `Except`-valued function; see its
doc-string. -/

structure SybilResistanceBound where
  max_sybil_nodes : ℤ
  a : ℤ
  d : ℝ
  n : ℕ
  C_star : ℝ
  expansion_factor : ℝ
  resistance_level : String
  sybil_percentage : ℝ

/-- `_create_zero_bound`: the all-zero result for empty/degenerate graphs. -/
def create_zero_bound : SybilResistanceBound :=
  ⟨0, 0, 0, 0, 1.0, 0, "UNKNOWN", 0⟩

/-- The expansion parameter `b = sqrt(d·(1/2 − ηV)/(2·ln m − 2))`. -/
noncomputable def bParam (m : ℕ) (d ηV : ℝ) : ℝ :=
  Real.sqrt (d * (0.5 - ηV) / (2 * Real.log (m : ℝ) - 2))

/-- The Theorem-4.4 denominator `(b−1)·(1/2 − ηV) − b·ηE`. -/
noncomputable def denomParam (b ηV ηE : ℝ) : ℝ := (b - 1) * (0.5 - ηV) - b * ηE

open Classical in
/-- The tail of `compute_sybil_bound` shared by its two successful
branches (source lines 94–126): the free bound `K` with the hard-coded
security parameter 40, the final `max`, `C_star`, the Sybil percentage
and the resistance level, assembled into the result record. -/
noncomputable def sybilBoundResult (m honest_n : ℕ) (attack_edges : ℤ)
    (d expansion_ratio eta_v : ℝ) (max_sybil : ℤ) : SybilResistanceBound :=
  let security_param : ℝ := 40
  let K : ℤ := pyInt (security_param + (eta_v * (m : ℝ) + 2) * Real.log (m : ℝ)
    + eta_v * (m : ℝ))
  let max_sybil_nodes := max K max_sybil
  let C_star : ℝ := if 0 < attack_edges then (max_sybil_nodes : ℝ) / 1 else 1.0
  let sybil_percentage : ℝ := if 0 < m then (max_sybil_nodes : ℝ) / (m : ℝ) * 100 else 0
  let resistance_level : String := if sybil_percentage < 5 then "HIGH"
    else if sybil_percentage < 15 then "MEDIUM" else "LOW"
  ⟨max_sybil_nodes, attack_edges, d, honest_n, C_star, expansion_ratio,
   resistance_level, sybil_percentage⟩

open Classical in
/-- `SybilBoundCalculator.compute_sybil_bound`.  The source can raise, so
the embedding is `Except`-valued, with `Except.error` carrying the Python
message of the exception.  The two raising paths are: (1) with `m > 1`,
when the radicand `d·(1/2 − ηV)/(2·ln m − 2)` is negative (for a graph
with in-range `ηV < 1/2` this means `m = 2`, where `2·ln 2 − 2 < 0`),
`np.sqrt` yields NaN; the guards `b <= 1` and `denominator <= 0` both
evaluate to False on NaN, so the source enters the Theorem-4.4 branch and
`int(nan)` raises ValueError there; (2) in the fallback branch, when
`d·expansion_ratio == 0` (for `d ≠ 0` this means a zero expansion ratio),
`attack_edges / (d·expansion_ratio)` raises ZeroDivisionError.  The case
`2·ln m − 2 = 0`, where Python float division would give ±inf instead of
the Lean convention `x/0 = 0`, cannot occur, since `ln m = 1` has no
integer solution. -/
noncomputable def compute_sybil_bound (m n_edges honest_n : ℕ) (attack_edges : ℤ)
    (eta_e eta_v : ℝ) (expansion_ratio : ℝ) : Except String SybilResistanceBound :=
  let d : ℝ := if 0 < m then 2 * (n_edges : ℝ) / (m : ℝ) else 0
  if m = 0 ∨ d = 0 then .ok create_zero_bound
  else if 1 < m ∧ d * (0.5 - eta_v) / (2 * Real.log (m : ℝ) - 2) < 0 then
    .error "ValueError: cannot convert float NaN to integer"
  else
    let b : ℝ := if 1 < m then bParam m d eta_v else 2.0
    let denominator := denomParam b eta_v eta_e
    if b ≤ 1 ∨ denominator ≤ 0 then
      if d * expansion_ratio = 0 then
        .error "ZeroDivisionError: float division by zero"
      else
        .ok (sybilBoundResult m honest_n attack_edges d expansion_ratio eta_v
          (pyInt ((attack_edges : ℝ) / (d * expansion_ratio))))
    else
      .ok (sybilBoundResult m honest_n attack_edges d expansion_ratio eta_v
        (pyInt (b / denominator * ((attack_edges : ℝ) / d))))

theorem sybilBoundResult_max (m honest_n : ℕ) (a : ℤ) (d r ηV : ℝ) (ms : ℤ) :
    (sybilBoundResult m honest_n a d r ηV ms).max_sybil_nodes =
      max (pyInt (40 + (ηV * (m : ℝ) + 2) * Real.log (m : ℝ) + ηV * (m : ℝ))) ms := rfl

open Classical in
theorem sybilBoundResult_fields (m honest_n : ℕ) (a : ℤ) (d r ηV : ℝ) (ms : ℤ)
    (hm0 : 0 < m) :
    (sybilBoundResult m honest_n a d r ηV ms).resistance_level =
      (if (sybilBoundResult m honest_n a d r ηV ms).sybil_percentage < 5 then "HIGH"
       else if (sybilBoundResult m honest_n a d r ηV ms).sybil_percentage < 15
       then "MEDIUM" else "LOW") ∧
    (sybilBoundResult m honest_n a d r ηV ms).sybil_percentage =
      ((sybilBoundResult m honest_n a d r ηV ms).max_sybil_nodes : ℝ) / (m : ℝ) * 100 := by
  constructor
  · rfl
  · simp only [sybilBoundResult]
    rw [if_pos hm0]

theorem compute_sybil_bound_zero (m n_edges honest_n : ℕ) (a : ℤ) (ηE ηV r : ℝ)
    (h : m = 0 ∨ n_edges = 0) :
    compute_sybil_bound m n_edges honest_n a ηE ηV r = .ok create_zero_bound := by
  have hd0 : (if 0 < m then 2 * (n_edges : ℝ) / (m : ℝ) else 0) = 0 := by
    rcases h with h | h
    · subst h
      rw [if_neg (show ¬ (0:ℕ) < 0 by omega)]
    · subst h
      by_cases hm0 : 0 < m
      · rw [if_pos hm0]
        norm_num
      · rw [if_neg hm0]
  simp only [compute_sybil_bound]
  rw [if_pos (Or.inr hd0)]

theorem compute_sybil_bound_nan_error (m n_edges honest_n : ℕ) (a : ℤ) (ηE ηV r : ℝ)
    (hm : 1 < m) (he : 0 < n_edges)
    (hx : 2 * (n_edges : ℝ) / (m : ℝ) * (0.5 - ηV) / (2 * Real.log (m : ℝ) - 2) < 0) :
    compute_sybil_bound m n_edges honest_n a ηE ηV r =
      .error "ValueError: cannot convert float NaN to integer" := by
  have hm0 : 0 < m := by omega
  have hm0' : (0:ℝ) < (m : ℝ) := by exact_mod_cast hm0
  have hne' : (0:ℝ) < (n_edges : ℝ) := by exact_mod_cast he
  have hd0 : (0:ℝ) < 2 * (n_edges : ℝ) / (m : ℝ) := by positivity
  simp only [compute_sybil_bound]
  rw [if_pos hm0, if_neg (by push_neg; exact ⟨by omega, by linarith⟩), if_pos ⟨hm, hx⟩]

theorem compute_sybil_bound_div_error (m n_edges honest_n : ℕ) (a : ℤ) (ηE ηV r : ℝ)
    (hm : 1 < m) (he : 0 < n_edges)
    (hx : 0 ≤ 2 * (n_edges : ℝ) / (m : ℝ) * (0.5 - ηV) / (2 * Real.log (m : ℝ) - 2))
    (hC : bParam m (2 * (n_edges : ℝ) / (m : ℝ)) ηV ≤ 1 ∨
      denomParam (bParam m (2 * (n_edges : ℝ) / (m : ℝ)) ηV) ηV ηE ≤ 0)
    (hdr : 2 * (n_edges : ℝ) / (m : ℝ) * r = 0) :
    compute_sybil_bound m n_edges honest_n a ηE ηV r =
      .error "ZeroDivisionError: float division by zero" := by
  have hm0 : 0 < m := by omega
  have hm0' : (0:ℝ) < (m : ℝ) := by exact_mod_cast hm0
  have hne' : (0:ℝ) < (n_edges : ℝ) := by exact_mod_cast he
  have hd0 : (0:ℝ) < 2 * (n_edges : ℝ) / (m : ℝ) := by positivity
  have hnan : ¬ (1 < m ∧
      2 * (n_edges : ℝ) / (m : ℝ) * (0.5 - ηV) / (2 * Real.log (m : ℝ) - 2) < 0) :=
    fun hcon => absurd hcon.2 (not_lt.mpr hx)
  simp only [compute_sybil_bound]
  rw [if_pos hm0, if_neg (by push_neg; exact ⟨by omega, by linarith⟩), if_neg hnan,
      if_pos hm, if_pos hC, if_pos hdr]

theorem compute_sybil_bound_fallback_eq (m n_edges honest_n : ℕ) (a : ℤ) (ηE ηV r : ℝ)
    (hm : 1 < m) (he : 0 < n_edges)
    (hx : 0 ≤ 2 * (n_edges : ℝ) / (m : ℝ) * (0.5 - ηV) / (2 * Real.log (m : ℝ) - 2))
    (hC : bParam m (2 * (n_edges : ℝ) / (m : ℝ)) ηV ≤ 1 ∨
      denomParam (bParam m (2 * (n_edges : ℝ) / (m : ℝ)) ηV) ηV ηE ≤ 0)
    (hdr : ¬ (2 * (n_edges : ℝ) / (m : ℝ) * r = 0)) :
    compute_sybil_bound m n_edges honest_n a ηE ηV r =
      .ok (sybilBoundResult m honest_n a (2 * (n_edges : ℝ) / (m : ℝ)) r ηV
        (pyInt ((a : ℝ) / (2 * (n_edges : ℝ) / (m : ℝ) * r)))) := by
  have hm0 : 0 < m := by omega
  have hm0' : (0:ℝ) < (m : ℝ) := by exact_mod_cast hm0
  have hne' : (0:ℝ) < (n_edges : ℝ) := by exact_mod_cast he
  have hd0 : (0:ℝ) < 2 * (n_edges : ℝ) / (m : ℝ) := by positivity
  have hnan : ¬ (1 < m ∧
      2 * (n_edges : ℝ) / (m : ℝ) * (0.5 - ηV) / (2 * Real.log (m : ℝ) - 2) < 0) :=
    fun hcon => absurd hcon.2 (not_lt.mpr hx)
  simp only [compute_sybil_bound]
  rw [if_pos hm0, if_neg (by push_neg; exact ⟨by omega, by linarith⟩), if_neg hnan,
      if_pos hm, if_pos hC, if_neg hdr]

theorem compute_sybil_bound_formal_eq (m n_edges honest_n : ℕ) (a : ℤ) (ηE ηV r : ℝ)
    (hm : 1 < m) (he : 0 < n_edges)
    (hb : 1 < bParam m (2 * (n_edges : ℝ) / (m : ℝ)) ηV)
    (hdn : 0 < denomParam (bParam m (2 * (n_edges : ℝ) / (m : ℝ)) ηV) ηV ηE) :
    compute_sybil_bound m n_edges honest_n a ηE ηV r =
      .ok (sybilBoundResult m honest_n a (2 * (n_edges : ℝ) / (m : ℝ)) r ηV
        (pyInt (bParam m (2 * (n_edges : ℝ) / (m : ℝ)) ηV /
          denomParam (bParam m (2 * (n_edges : ℝ) / (m : ℝ)) ηV) ηV ηE *
          ((a : ℝ) / (2 * (n_edges : ℝ) / (m : ℝ)))))) := by
  have hm0 : 0 < m := by omega
  have hm0' : (0:ℝ) < (m : ℝ) := by exact_mod_cast hm0
  have hne' : (0:ℝ) < (n_edges : ℝ) := by exact_mod_cast he
  have hd0 : (0:ℝ) < 2 * (n_edges : ℝ) / (m : ℝ) := by positivity
  have hx : 0 ≤ 2 * (n_edges : ℝ) / (m : ℝ) * (0.5 - ηV) / (2 * Real.log (m : ℝ) - 2) := by
    by_contra hneg
    push_neg at hneg
    have hb0 : bParam m (2 * (n_edges : ℝ) / (m : ℝ)) ηV = 0 :=
      Real.sqrt_eq_zero'.mpr (le_of_lt hneg)
    rw [hb0] at hb
    linarith
  have hnan : ¬ (1 < m ∧
      2 * (n_edges : ℝ) / (m : ℝ) * (0.5 - ηV) / (2 * Real.log (m : ℝ) - 2) < 0) :=
    fun hcon => absurd hcon.2 (not_lt.mpr hx)
  have hCneg : ¬ (bParam m (2 * (n_edges : ℝ) / (m : ℝ)) ηV ≤ 1 ∨
      denomParam (bParam m (2 * (n_edges : ℝ) / (m : ℝ)) ηV) ηV ηE ≤ 0) := by
    push_neg
    exact ⟨hb, hdn⟩
  simp only [compute_sybil_bound]
  rw [if_pos hm0, if_neg (by push_neg; exact ⟨by omega, by linarith⟩), if_neg hnan,
      if_pos hm, if_neg hCneg]

theorem compute_sybil_bound_ok_inv (m n_edges honest_n : ℕ) (a : ℤ) (ηE ηV r : ℝ)
    (bound : SybilResistanceBound) (hm0 : 0 < m) (he : 0 < n_edges)
    (heq : compute_sybil_bound m n_edges honest_n a ηE ηV r = .ok bound) :
    ∃ ms : ℤ,
      bound = sybilBoundResult m honest_n a (2 * (n_edges : ℝ) / (m : ℝ)) r ηV ms := by
  have hm0' : (0:ℝ) < (m : ℝ) := by exact_mod_cast hm0
  have hne' : (0:ℝ) < (n_edges : ℝ) := by exact_mod_cast he
  have hd0 : (0:ℝ) < 2 * (n_edges : ℝ) / (m : ℝ) := by positivity
  simp only [compute_sybil_bound] at heq
  rw [if_pos hm0, if_neg (by push_neg; exact ⟨by omega, by linarith⟩)] at heq
  split at heq
  · exact Except.noConfusion heq
  · split at heq
    all_goals split at heq
    · split at heq
      · exact Except.noConfusion heq
      · injection heq with h
        exact ⟨_, h.symm⟩
    · injection heq with h
      exact ⟨_, h.symm⟩
    · split at heq
      · exact Except.noConfusion heq
      · injection heq with h
        exact ⟨_, h.symm⟩
    · injection heq with h
      exact ⟨_, h.symm⟩

theorem log_four_gt : (1.3862943606:ℝ) < Real.log 4 := by
  have h2 := Real.log_two_gt_d9
  have h4 : Real.log 4 = 2 * Real.log 2 := by
    rw [show (4:ℝ) = 2 ^ 2 by norm_num, Real.log_pow]
    push_cast
    ring
  rw [h4]
  linarith

theorem sqrt_le_of_sq {x c : ℝ} (hc : 0 ≤ c) (h : x ≤ c ^ 2) : Real.sqrt x ≤ c := by
  calc Real.sqrt x ≤ Real.sqrt (c ^ 2) := Real.sqrt_le_sqrt h
  _ = c := Real.sqrt_sq hc

/-- Claim C2, counterexample: the claim's domain (every graph with `m > 1`
nodes and `d > 0`, every `a ≥ 0`, every expansion ratio `r`) contains
inputs on which `compute_sybil_bound` raises instead of returning
`max(K, t)`.  On the two-node graph with one edge (`m = 2`, `d = 1`) the
radicand of `b` is negative because `2·ln 2 − 2 < 0`, `np.sqrt` yields
NaN, the guards `b <= 1` and `denominator <= 0` both test False on NaN,
and `int(nan)` in the Theorem-4.4 branch raises ValueError.  On a 4-node
graph with 3 edges and expansion ratio 0 the fallback branch divides by
`d·expansion_ratio = 0` and raises ZeroDivisionError. -/
theorem spec_c2_counterexample :
    compute_sybil_bound 2 1 2 0 0.125 0.025 2 =
      .error "ValueError: cannot convert float NaN to integer" ∧
    compute_sybil_bound 4 3 4 2 0.125 0.025 0 =
      .error "ZeroDivisionError: float division by zero" := by
  constructor
  · apply compute_sybil_bound_nan_error 2 1 2 0 0.125 0.025 2 (by norm_num) (by norm_num)
    apply div_neg_of_pos_of_neg
    · push_cast
      norm_num
    · push_cast
      nlinarith [Real.log_two_lt_d9]
  · have hlog4 := log_four_gt
    have h2L4 : (0:ℝ) < 2 * Real.log ((4:ℕ) : ℝ) - 2 := by
      push_cast
      nlinarith
    have hx : 0 ≤ 2 * ((3:ℕ) : ℝ) / ((4:ℕ) : ℝ) * (0.5 - 0.025) /
        (2 * Real.log ((4:ℕ) : ℝ) - 2) := by
      refine div_nonneg ?_ (le_of_lt h2L4)
      push_cast
      norm_num
    have hb4 : bParam 4 (2 * ((3:ℕ) : ℝ) / ((4:ℕ) : ℝ)) 0.025 ≤ 1 := by
      unfold bParam
      apply sqrt_le_of_sq (by norm_num)
      rw [div_le_iff₀ h2L4]
      push_cast
      nlinarith
    apply compute_sybil_bound_div_error 4 3 4 2 0.125 0.025 0 (by norm_num) (by norm_num)
      hx (Or.inl hb4)
    push_cast
    norm_num

open Classical in
/-- Claim C2, amended: restricted to inputs on which the source does not
raise — `m ≥ 3` (so `2·ln m − 2 > 0`; at `m = 2` the NaN path raises
ValueError), tolerance `0 ≤ ηV ≤ 1/2` (keeping the radicand
non-negative) and nonzero expansion ratio `r` (at ratio 0 the fallback
branch raises ZeroDivisionError) — `compute_sybil_bound` returns a bound
whose `max_sybil_nodes` is `max(K, t)`, with `t = ⌊(b/denom)·(a/d)⌋` when
`b > 1` and `denom > 0`, `t = ⌊a/(d·r)⌋` otherwise, and
`K = ⌊40 + (ηV·m+2)·ln m + ηV·m⌋` for the hard-coded security parameter
`κ = 40`; in particular the result is never below `K`. -/
theorem spec_c2_amended (m n_edges honest_n : ℕ) (a : ℤ) (ηE ηV r : ℝ)
    (hm : 3 ≤ m) (he : 0 < n_edges) (ha : 0 ≤ a) (hv : 0 ≤ ηV) (hv5 : ηV ≤ 0.5)
    (hr : r ≠ 0) :
    ExceptOk (compute_sybil_bound m n_edges honest_n a ηE ηV r) (fun bound =>
      bound.max_sybil_nodes =
        max (⌊(40:ℝ) + (ηV * (m : ℝ) + 2) * Real.log (m : ℝ) + ηV * (m : ℝ)⌋)
          (if 1 < bParam m (2 * (n_edges : ℝ) / (m : ℝ)) ηV ∧
              0 < denomParam (bParam m (2 * (n_edges : ℝ) / (m : ℝ)) ηV) ηV ηE then
            ⌊bParam m (2 * (n_edges : ℝ) / (m : ℝ)) ηV /
              denomParam (bParam m (2 * (n_edges : ℝ) / (m : ℝ)) ηV) ηV ηE *
              ((a : ℝ) / (2 * (n_edges : ℝ) / (m : ℝ)))⌋
          else ⌊(a : ℝ) / (2 * (n_edges : ℝ) / (m : ℝ) * r)⌋) ∧
      ⌊(40:ℝ) + (ηV * (m : ℝ) + 2) * Real.log (m : ℝ) + ηV * (m : ℝ)⌋ ≤
        bound.max_sybil_nodes) := by
  have hm1 : 1 < m := by omega
  have hm0' : (0:ℝ) < (m : ℝ) := by exact_mod_cast (by omega : 0 < m)
  have hm3' : (3:ℝ) ≤ (m : ℝ) := by exact_mod_cast hm
  have hne' : (0:ℝ) < (n_edges : ℝ) := by exact_mod_cast he
  have hd0 : (0:ℝ) < 2 * (n_edges : ℝ) / (m : ℝ) := by positivity
  have ha' : (0:ℝ) ≤ (a : ℝ) := by exact_mod_cast ha
  have hL1 : 1 < Real.log (m : ℝ) := one_lt_log_of_le (by linarith)
  have h2L : (0:ℝ) < 2 * Real.log (m : ℝ) - 2 := by linarith
  have hx : 0 ≤ 2 * (n_edges : ℝ) / (m : ℝ) * (0.5 - ηV) / (2 * Real.log (m : ℝ) - 2) :=
    div_nonneg (mul_nonneg (le_of_lt hd0) (by linarith)) (le_of_lt h2L)
  have hL0 : 0 ≤ Real.log (m : ℝ) := by linarith
  have hvm : 0 ≤ ηV * (m : ℝ) := mul_nonneg hv (le_of_lt hm0')
  have hK0 : (0:ℝ) ≤ 40 + (ηV * (m : ℝ) + 2) * Real.log (m : ℝ) + ηV * (m : ℝ) := by
    nlinarith
  have hKfloor : pyInt (40 + (ηV * (m : ℝ) + 2) * Real.log (m : ℝ) + ηV * (m : ℝ)) =
      ⌊(40:ℝ) + (ηV * (m : ℝ) + 2) * Real.log (m : ℝ) + ηV * (m : ℝ)⌋ :=
    pyInt_of_nonneg hK0
  have hK0' : (0:ℤ) ≤ ⌊(40:ℝ) + (ηV * (m : ℝ) + 2) * Real.log (m : ℝ) + ηV * (m : ℝ)⌋ :=
    Int.floor_nonneg.mpr hK0
  have hbnn : 0 ≤ bParam m (2 * (n_edges : ℝ) / (m : ℝ)) ηV := Real.sqrt_nonneg _
  by_cases hC : bParam m (2 * (n_edges : ℝ) / (m : ℝ)) ηV ≤ 1 ∨
      denomParam (bParam m (2 * (n_edges : ℝ) / (m : ℝ)) ηV) ηV ηE ≤ 0
  · have hdr : ¬ (2 * (n_edges : ℝ) / (m : ℝ) * r = 0) := mul_ne_zero (ne_of_gt hd0) hr
    rw [compute_sybil_bound_fallback_eq m n_edges honest_n a ηE ηV r hm1 he hx hC hdr]
    have hnotif : ¬ (1 < bParam m (2 * (n_edges : ℝ) / (m : ℝ)) ηV ∧
        0 < denomParam (bParam m (2 * (n_edges : ℝ) / (m : ℝ)) ηV) ηV ηE) := by
      push_neg
      intro h1
      rcases hC with h | h
      exacts [absurd h1 (not_lt.mpr h), h]
    have hmain : (sybilBoundResult m honest_n a (2 * (n_edges : ℝ) / (m : ℝ)) r ηV
        (pyInt ((a : ℝ) / (2 * (n_edges : ℝ) / (m : ℝ) * r)))).max_sybil_nodes =
        max (⌊(40:ℝ) + (ηV * (m : ℝ) + 2) * Real.log (m : ℝ) + ηV * (m : ℝ)⌋)
          (if 1 < bParam m (2 * (n_edges : ℝ) / (m : ℝ)) ηV ∧
              0 < denomParam (bParam m (2 * (n_edges : ℝ) / (m : ℝ)) ηV) ηV ηE then
            ⌊bParam m (2 * (n_edges : ℝ) / (m : ℝ)) ηV /
              denomParam (bParam m (2 * (n_edges : ℝ) / (m : ℝ)) ηV) ηV ηE *
              ((a : ℝ) / (2 * (n_edges : ℝ) / (m : ℝ)))⌋
          else ⌊(a : ℝ) / (2 * (n_edges : ℝ) / (m : ℝ) * r)⌋) := by
      rw [sybilBoundResult_max, hKfloor, if_neg hnotif]
      rcases lt_or_le 0 r with hrpos | hrneg
      · have hx2 : 0 ≤ (a : ℝ) / (2 * (n_edges : ℝ) / (m : ℝ) * r) := by positivity
        rw [pyInt_of_nonneg hx2]
      · have hx2 : (a : ℝ) / (2 * (n_edges : ℝ) / (m : ℝ) * r) ≤ 0 :=
          div_nonpos_iff.mpr
            (Or.inl ⟨ha', mul_nonpos_of_nonneg_of_nonpos (le_of_lt hd0) hrneg⟩)
        rw [max_eq_left (le_trans (pyInt_nonpos hx2) hK0'),
            max_eq_left (le_trans (Int.floor_nonpos hx2) hK0')]
    exact ⟨hmain, by rw [hmain]; exact le_max_left _ _⟩
  · push_neg at hC
    obtain ⟨hb1, hdn⟩ := hC
    rw [compute_sybil_bound_formal_eq m n_edges honest_n a ηE ηV r hm1 he hb1 hdn]
    have hx2 : 0 ≤ bParam m (2 * (n_edges : ℝ) / (m : ℝ)) ηV /
        denomParam (bParam m (2 * (n_edges : ℝ) / (m : ℝ)) ηV) ηV ηE *
        ((a : ℝ) / (2 * (n_edges : ℝ) / (m : ℝ))) := by positivity
    have hmain : (sybilBoundResult m honest_n a (2 * (n_edges : ℝ) / (m : ℝ)) r ηV
        (pyInt (bParam m (2 * (n_edges : ℝ) / (m : ℝ)) ηV /
          denomParam (bParam m (2 * (n_edges : ℝ) / (m : ℝ)) ηV) ηV ηE *
          ((a : ℝ) / (2 * (n_edges : ℝ) / (m : ℝ)))))).max_sybil_nodes =
        max (⌊(40:ℝ) + (ηV * (m : ℝ) + 2) * Real.log (m : ℝ) + ηV * (m : ℝ)⌋)
          (if 1 < bParam m (2 * (n_edges : ℝ) / (m : ℝ)) ηV ∧
              0 < denomParam (bParam m (2 * (n_edges : ℝ) / (m : ℝ)) ηV) ηV ηE then
            ⌊bParam m (2 * (n_edges : ℝ) / (m : ℝ)) ηV /
              denomParam (bParam m (2 * (n_edges : ℝ) / (m : ℝ)) ηV) ηV ηE *
              ((a : ℝ) / (2 * (n_edges : ℝ) / (m : ℝ)))⌋
          else ⌊(a : ℝ) / (2 * (n_edges : ℝ) / (m : ℝ) * r)⌋) := by
      rw [sybilBoundResult_max, hKfloor, if_pos ⟨hb1, hdn⟩, pyInt_of_nonneg hx2]
    exact ⟨hmain, by rw [hmain]; exact le_max_left _ _⟩

/-- Claim C2, witness: the amended theorem applied at the worked example
from the spec's test list (m = 1000 nodes, 30000 edges so d = 60,
a = 3000, ηE = 0.125, ηV = 0.025, expansion ratio 2). -/
theorem spec_c2_witness :
    ((3:ℕ) ≤ 1000 ∧ 0 < 30000 ∧ (0:ℤ) ≤ 3000 ∧ (0:ℝ) ≤ 0.025 ∧ (0.025:ℝ) ≤ 0.5 ∧
      (2:ℝ) ≠ 0) ∧
    ExceptOk (compute_sybil_bound 1000 30000 1000 3000 0.125 0.025 2) (fun bound =>
      bound.max_sybil_nodes =
        max (⌊(40:ℝ) + (0.025 * ((1000:ℕ) : ℝ) + 2) * Real.log ((1000:ℕ) : ℝ)
              + 0.025 * ((1000:ℕ) : ℝ)⌋)
          (if 1 < bParam 1000 (2 * ((30000:ℕ) : ℝ) / ((1000:ℕ) : ℝ)) 0.025 ∧
              0 < denomParam (bParam 1000 (2 * ((30000:ℕ) : ℝ) / ((1000:ℕ) : ℝ)) 0.025)
                0.025 0.125 then
            ⌊bParam 1000 (2 * ((30000:ℕ) : ℝ) / ((1000:ℕ) : ℝ)) 0.025 /
              denomParam (bParam 1000 (2 * ((30000:ℕ) : ℝ) / ((1000:ℕ) : ℝ)) 0.025)
                0.025 0.125 *
              (((3000:ℤ) : ℝ) / (2 * ((30000:ℕ) : ℝ) / ((1000:ℕ) : ℝ)))⌋
          else ⌊((3000:ℤ) : ℝ) / (2 * ((30000:ℕ) : ℝ) / ((1000:ℕ) : ℝ) * 2)⌋) ∧
      ⌊(40:ℝ) + (0.025 * ((1000:ℕ) : ℝ) + 2) * Real.log ((1000:ℕ) : ℝ)
          + 0.025 * ((1000:ℕ) : ℝ)⌋ ≤ bound.max_sybil_nodes) := by
  refine ⟨⟨by norm_num, by norm_num, by norm_num, by norm_num, by norm_num, by norm_num⟩, ?_⟩
  exact spec_c2_amended 1000 30000 1000 3000 0.125 0.025 2 (by norm_num) (by norm_num)
    (by norm_num) (by norm_num) (by norm_num) (by norm_num)

theorem classify_iff (p : ℝ) :
    ((if p < 5 then "HIGH" else if p < 15 then "MEDIUM" else "LOW") = "HIGH" ↔ p < 5) ∧
    ((if p < 5 then "HIGH" else if p < 15 then "MEDIUM" else "LOW") = "MEDIUM" ↔
      5 ≤ p ∧ p < 15) ∧
    ((if p < 5 then "HIGH" else if p < 15 then "MEDIUM" else "LOW") = "LOW" ↔ 15 ≤ p) := by
  by_cases h5 : p < 5
  · rw [if_pos h5]
    refine ⟨iff_of_true rfl h5, iff_of_false (by simp) ?_, iff_of_false (by simp) ?_⟩
    · rintro ⟨h, _⟩; linarith
    · intro h; linarith
  · rw [if_neg h5]
    by_cases h15 : p < 15
    · rw [if_pos h15]
      refine ⟨iff_of_false (by simp) h5, iff_of_true rfl ⟨by linarith, h15⟩,
        iff_of_false (by simp) ?_⟩
      intro h; linarith
    · rw [if_neg h15]
      exact ⟨iff_of_false (by simp) h5, iff_of_false (by simp) (by rintro ⟨_, h⟩; exact h15 h),
        iff_of_true rfl (by linarith)⟩

/-- Claim C3: every `SybilResistanceBound` actually computed (i.e.
returned as `Except.ok`) on a graph with at least one node and at least
one edge has `resistance_level` HIGH exactly when `sybil_percentage < 5`,
MEDIUM exactly when it lies in `[5, 15)`, LOW exactly when it is at least
15, with `sybil_percentage = max_sybil_nodes/m·100`; and on a graph with
no nodes or no edges (average degree 0) the computation returns the
all-zero bound with level UNKNOWN.  The raising inputs described at
`compute_sybil_bound` return no bound, so the claim's quantification over
computed bounds does not reach them. -/
theorem spec_c3 (m n_edges honest_n : ℕ) (a : ℤ) (ηE ηV r : ℝ) :
    (∀ bound : SybilResistanceBound, 0 < m → 0 < n_edges →
      compute_sybil_bound m n_edges honest_n a ηE ηV r = .ok bound →
      ((bound.resistance_level = "HIGH" ↔ bound.sybil_percentage < 5) ∧
       (bound.resistance_level = "MEDIUM" ↔
          5 ≤ bound.sybil_percentage ∧ bound.sybil_percentage < 15) ∧
       (bound.resistance_level = "LOW" ↔ 15 ≤ bound.sybil_percentage) ∧
       bound.sybil_percentage = (bound.max_sybil_nodes : ℝ) / (m : ℝ) * 100)) ∧
    (m = 0 ∨ n_edges = 0 →
      compute_sybil_bound m n_edges honest_n a ηE ηV r = .ok create_zero_bound) := by
  constructor
  · intro bound hm0 he heq
    obtain ⟨ms, rfl⟩ :=
      compute_sybil_bound_ok_inv m n_edges honest_n a ηE ηV r bound hm0 he heq
    obtain ⟨hlev, hpct⟩ :=
      sybilBoundResult_fields m honest_n a (2 * (n_edges : ℝ) / (m : ℝ)) r ηV ms hm0
    obtain ⟨i1, i2, i3⟩ := classify_iff
      ((sybilBoundResult m honest_n a (2 * (n_edges : ℝ) / (m : ℝ)) r ηV ms).sybil_percentage)
    rw [hlev]
    exact ⟨i1, i2, i3, hpct⟩
  · exact compute_sybil_bound_zero m n_edges honest_n a ηE ηV r

/-- The bound returned on the concrete graph used to witness claim C3:
m = 4 nodes, 3 edges (d = 3/2), a = 2, ηV = 0.025, expansion ratio 2;
there `b ≤ 1`, so the fallback branch returns `⌊a/(d·r)⌋`. -/
noncomputable def c3WitnessBound : SybilResistanceBound :=
  sybilBoundResult 4 4 2 (2 * ((3:ℕ) : ℝ) / ((4:ℕ) : ℝ)) 2 0.025
    (pyInt (((2:ℤ) : ℝ) / (2 * ((3:ℕ) : ℝ) / ((4:ℕ) : ℝ) * 2)))

/-- Claim C3, witness: the classification ↔ thresholds at the concrete
returned bound on a 4-node, 3-edge graph, and the zero bound at an
edgeless graph. -/
theorem spec_c3_witness :
    (0 < 4 ∧ 0 < 3 ∧
      compute_sybil_bound 4 3 4 2 0.125 0.025 2 = .ok c3WitnessBound ∧
      ((c3WitnessBound.resistance_level = "HIGH" ↔ c3WitnessBound.sybil_percentage < 5) ∧
       (c3WitnessBound.resistance_level = "MEDIUM" ↔
          5 ≤ c3WitnessBound.sybil_percentage ∧ c3WitnessBound.sybil_percentage < 15) ∧
       (c3WitnessBound.resistance_level = "LOW" ↔ 15 ≤ c3WitnessBound.sybil_percentage) ∧
       c3WitnessBound.sybil_percentage =
         (c3WitnessBound.max_sybil_nodes : ℝ) / ((4:ℕ) : ℝ) * 100)) ∧
    compute_sybil_bound 5 0 5 2 0.125 0.025 2 = .ok create_zero_bound := by
  have hlog4 := log_four_gt
  have h2L4 : (0:ℝ) < 2 * Real.log ((4:ℕ) : ℝ) - 2 := by
    push_cast
    nlinarith
  have hx : 0 ≤ 2 * ((3:ℕ) : ℝ) / ((4:ℕ) : ℝ) * (0.5 - 0.025) /
      (2 * Real.log ((4:ℕ) : ℝ) - 2) := by
    refine div_nonneg ?_ (le_of_lt h2L4)
    push_cast
    norm_num
  have hb4 : bParam 4 (2 * ((3:ℕ) : ℝ) / ((4:ℕ) : ℝ)) 0.025 ≤ 1 := by
    unfold bParam
    apply sqrt_le_of_sq (by norm_num)
    rw [div_le_iff₀ h2L4]
    push_cast
    nlinarith
  have heq : compute_sybil_bound 4 3 4 2 0.125 0.025 2 = .ok c3WitnessBound :=
    compute_sybil_bound_fallback_eq 4 3 4 2 0.125 0.025 2 (by norm_num) (by norm_num)
      hx (Or.inl hb4) (by push_cast; norm_num)
  refine ⟨⟨by norm_num, by norm_num, heq, ?_⟩,
    (spec_c3 5 0 5 2 0.125 0.025 2).2 (Or.inr rfl)⟩
  exact (spec_c3 4 3 4 2 0.125 0.025 2).1 c3WitnessBound (by norm_num) (by norm_num) heq

theorem ExceptOk_ok_ok {ε α : Type _} {x y : α} {P : α → α → Prop} :
    ExceptOk (ε := ε) (.ok x) (fun u => ExceptOk (ε := ε) (.ok y) (fun v => P u v)) ↔
      P x y := Iff.rfl

theorem max_pyInt_div_mono_a (K : ℤ) (hK : 0 ≤ K) (dr : ℝ) {a₁ a₂ : ℤ}
    (ha₁ : 0 ≤ a₁) (h12 : a₁ ≤ a₂) :
    max K (pyInt ((a₁ : ℝ) / dr)) ≤ max K (pyInt ((a₂ : ℝ) / dr)) := by
  have ha₁' : (0:ℝ) ≤ (a₁ : ℝ) := by exact_mod_cast ha₁
  have ha₂' : (0:ℝ) ≤ (a₂ : ℝ) := le_trans ha₁' (by exact_mod_cast h12)
  have h12' : (a₁ : ℝ) ≤ (a₂ : ℝ) := by exact_mod_cast h12
  rcases lt_or_le 0 dr with hdr | hdr
  · exact max_le_max le_rfl (pyInt_mono_of_nonneg (by positivity)
      ((div_le_div_iff_of_pos_right hdr).mpr h12'))
  · have hx₁ : (a₁ : ℝ) / dr ≤ 0 := div_nonpos_iff.mpr (Or.inl ⟨ha₁', hdr⟩)
    have hx₂ : (a₂ : ℝ) / dr ≤ 0 := div_nonpos_iff.mpr (Or.inl ⟨ha₂', hdr⟩)
    rw [max_eq_left (le_trans (pyInt_nonpos hx₁) hK),
        max_eq_left (le_trans (pyInt_nonpos hx₂) hK)]

theorem max_pyInt_mul_div_mono_a (K : ℤ) (hK : 0 ≤ K) (c d : ℝ) (hc : 0 ≤ c)
    (hd : 0 < d) {a₁ a₂ : ℤ} (ha₁ : 0 ≤ a₁) (h12 : a₁ ≤ a₂) :
    max K (pyInt (c * ((a₁ : ℝ) / d))) ≤ max K (pyInt (c * ((a₂ : ℝ) / d))) := by
  have ha₁' : (0:ℝ) ≤ (a₁ : ℝ) := by exact_mod_cast ha₁
  have h12' : (a₁ : ℝ) ≤ (a₂ : ℝ) := by exact_mod_cast h12
  refine max_le_max le_rfl (pyInt_mono_of_nonneg (by positivity) ?_)
  exact mul_le_mul_of_nonneg_left ((div_le_div_iff_of_pos_right hd).mpr h12') hc

theorem sybil_fallback_antitone (K : ℤ) (hK : 0 ≤ K) (d₁ d₂ r : ℝ)
    (hd₁ : 0 < d₁) (hdd : d₁ ≤ d₂) {a : ℤ} (ha : 0 ≤ a) :
    max K (pyInt ((a : ℝ) / (d₂ * r))) ≤ max K (pyInt ((a : ℝ) / (d₁ * r))) := by
  have ha' : (0:ℝ) ≤ (a : ℝ) := by exact_mod_cast ha
  rcases lt_or_le 0 r with hr | hr
  · refine max_le_max le_rfl (pyInt_mono_of_nonneg
      (div_nonneg ha' (le_of_lt (mul_pos (lt_of_lt_of_le hd₁ hdd) hr))) ?_)
    exact div_le_div_of_nonneg_left ha' (mul_pos hd₁ hr)
      (mul_le_mul_of_nonneg_right hdd (le_of_lt hr))
  · have hx₁ : (a : ℝ) / (d₁ * r) ≤ 0 := div_nonpos_iff.mpr
      (Or.inl ⟨ha', mul_nonpos_of_nonneg_of_nonpos (le_of_lt hd₁) hr⟩)
    have hx₂ : (a : ℝ) / (d₂ * r) ≤ 0 := div_nonpos_iff.mpr
      (Or.inl ⟨ha', mul_nonpos_of_nonneg_of_nonpos (by linarith) hr⟩)
    rw [max_eq_left (le_trans (pyInt_nonpos hx₁) hK),
        max_eq_left (le_trans (pyInt_nonpos hx₂) hK)]

theorem bParam_denom_pos {m : ℕ} {d ηV : ℝ} (hd : 0 < d) (hβ : 0 < 0.5 - ηV)
    (hb : 1 < bParam m d ηV) : 0 < 2 * Real.log (m : ℝ) - 2 := by
  by_contra h
  push_neg at h
  have harg : d * (0.5 - ηV) / (2 * Real.log (m : ℝ) - 2) ≤ 0 :=
    div_nonpos_iff.mpr (Or.inl ⟨by positivity, h⟩)
  have : bParam m d ηV = 0 := Real.sqrt_eq_zero'.mpr harg
  rw [this] at hb
  linarith

theorem bParam_mono {m : ℕ} {d₁ d₂ ηV : ℝ} (hβ : 0 < 0.5 - ηV)
    (h2L : 0 < 2 * Real.log (m : ℝ) - 2) (hdd : d₁ ≤ d₂) :
    bParam m d₁ ηV ≤ bParam m d₂ ηV := by
  apply Real.sqrt_le_sqrt
  gcongr

/-- Claim C4, amended: whenever both computations return a bound (the
raising inputs described at `compute_sybil_bound` are independent of the
attack-edge count, so either both return or both raise),
`max_sybil_nodes` is monotone non-decreasing in the attack-edge count.
It is monotone non-increasing in the average degree (varying the edge
count on a fixed node set) ONLY within a single branch of the
computation: if both degrees lie in the formal Theorem-4.4 region
(`b > 1` and positive denominator, where the computation provably
succeeds), or both lie in the fallback region (on the raise-free domain
`m ≥ 3`, `0 ≤ ηV ≤ 1/2`, `r ≠ 0`).  Across the branch boundary
antitonicity fails (see the counterexample). -/
theorem spec_c4_amended :
    (∀ (m nE h : ℕ) (ηE ηV r : ℝ) (a₁ a₂ : ℤ) (bound₁ bound₂ : SybilResistanceBound),
      0 ≤ a₁ → a₁ ≤ a₂ → 0 ≤ ηV →
      compute_sybil_bound m nE h a₁ ηE ηV r = .ok bound₁ →
      compute_sybil_bound m nE h a₂ ηE ηV r = .ok bound₂ →
      bound₁.max_sybil_nodes ≤ bound₂.max_sybil_nodes) ∧
    (∀ (m e₁ e₂ h : ℕ) (a : ℤ) (ηE ηV r : ℝ), 1 < m → 1 ≤ e₁ → e₁ ≤ e₂ →
      0 ≤ a → 0 ≤ ηE → 0 ≤ ηV → ηV < 0.5 →
      1 < bParam m (2 * (e₁ : ℝ) / (m : ℝ)) ηV →
      0 < denomParam (bParam m (2 * (e₁ : ℝ) / (m : ℝ)) ηV) ηV ηE →
      1 < bParam m (2 * (e₂ : ℝ) / (m : ℝ)) ηV →
      0 < denomParam (bParam m (2 * (e₂ : ℝ) / (m : ℝ)) ηV) ηV ηE →
      ExceptOk (compute_sybil_bound m e₂ h a ηE ηV r) (fun bound₂ =>
        ExceptOk (compute_sybil_bound m e₁ h a ηE ηV r) (fun bound₁ =>
          bound₂.max_sybil_nodes ≤ bound₁.max_sybil_nodes))) ∧
    (∀ (m e₁ e₂ h : ℕ) (a : ℤ) (ηE ηV r : ℝ), 3 ≤ m → 1 ≤ e₁ → e₁ ≤ e₂ →
      0 ≤ a → 0 ≤ ηV → ηV ≤ 0.5 → r ≠ 0 →
      (bParam m (2 * (e₁ : ℝ) / (m : ℝ)) ηV ≤ 1 ∨
        denomParam (bParam m (2 * (e₁ : ℝ) / (m : ℝ)) ηV) ηV ηE ≤ 0) →
      (bParam m (2 * (e₂ : ℝ) / (m : ℝ)) ηV ≤ 1 ∨
        denomParam (bParam m (2 * (e₂ : ℝ) / (m : ℝ)) ηV) ηV ηE ≤ 0) →
      ExceptOk (compute_sybil_bound m e₂ h a ηE ηV r) (fun bound₂ =>
        ExceptOk (compute_sybil_bound m e₁ h a ηE ηV r) (fun bound₁ =>
          bound₂.max_sybil_nodes ≤ bound₁.max_sybil_nodes))) := by
  refine ⟨?_, ?_, ?_⟩
  · intro m nE h ηE ηV r a₁ a₂ bound₁ bound₂ ha₁ h12 hv hok₁ hok₂
    by_cases hz : m = 0 ∨ nE = 0
    · rw [compute_sybil_bound_zero m nE h a₁ ηE ηV r hz] at hok₁
      rw [compute_sybil_bound_zero m nE h a₂ ηE ηV r hz] at hok₂
      injection hok₁ with h₁
      injection hok₂ with h₂
      subst h₁
      subst h₂
      exact le_rfl
    · push_neg at hz
      have hm0 : 0 < m := by omega
      have hm0' : (0:ℝ) < (m : ℝ) := by exact_mod_cast hm0
      have hne' : (0:ℝ) < (nE : ℝ) := by
        have : 0 < nE := by omega
        exact_mod_cast this
      have hd0 : (0:ℝ) < 2 * (nE : ℝ) / (m : ℝ) := by positivity
      have hL0 : 0 ≤ Real.log (m : ℝ) := Real.log_nonneg (by exact_mod_cast hm0)
      have hK0 : (0:ℝ) ≤ 40 + (ηV * (m : ℝ) + 2) * Real.log (m : ℝ) + ηV * (m : ℝ) := by
        nlinarith [mul_nonneg hv (le_of_lt hm0')]
      have hg : ¬ (m = 0 ∨ 2 * (nE : ℝ) / (m : ℝ) = 0) := by
        push_neg
        exact ⟨by omega, by linarith⟩
      simp only [compute_sybil_bound] at hok₁ hok₂
      rw [if_pos hm0, if_neg hg] at hok₁ hok₂
      by_cases hnan : 1 < m ∧ 2 * (nE : ℝ) / (m : ℝ) * (0.5 - ηV) /
          (2 * Real.log (m : ℝ) - 2) < 0
      · rw [if_pos hnan] at hok₁
        exact Except.noConfusion hok₁
      · rw [if_neg hnan] at hok₁ hok₂
        by_cases hC : (if 1 < m then bParam m (2 * (nE : ℝ) / (m : ℝ)) ηV else 2.0) ≤ 1 ∨
            denomParam (if 1 < m then bParam m (2 * (nE : ℝ) / (m : ℝ)) ηV else 2.0)
              ηV ηE ≤ 0
        · rw [if_pos hC] at hok₁ hok₂
          by_cases hdr : 2 * (nE : ℝ) / (m : ℝ) * r = 0
          · rw [if_pos hdr] at hok₁
            exact Except.noConfusion hok₁
          · rw [if_neg hdr] at hok₁ hok₂
            injection hok₁ with h₁
            injection hok₂ with h₂
            subst h₁
            subst h₂
            rw [sybilBoundResult_max, sybilBoundResult_max]
            exact max_pyInt_div_mono_a _ (pyInt_nonneg hK0) _ ha₁ h12
        · rw [if_neg hC] at hok₁ hok₂
          push_neg at hC
          obtain ⟨hb1, hdn⟩ := hC
          injection hok₁ with h₁
          injection hok₂ with h₂
          subst h₁
          subst h₂
          rw [sybilBoundResult_max, sybilBoundResult_max]
          refine max_pyInt_mul_div_mono_a _ (pyInt_nonneg hK0) _ _ ?_ hd0 ha₁ h12
          exact le_of_lt (div_pos (by linarith) hdn)
  · intro m e₁ e₂ h a ηE ηV r hm he₁ h12e ha hee hv hv2 hb₁ hdn₁ hb₂ hdn₂
    have hm0' : (0:ℝ) < (m : ℝ) := by exact_mod_cast (by omega : 0 < m)
    have he₁' : (0:ℝ) < (e₁ : ℝ) := by exact_mod_cast (by omega : 0 < e₁)
    have hd₁ : (0:ℝ) < 2 * (e₁ : ℝ) / (m : ℝ) := by positivity
    have hdd : 2 * (e₁ : ℝ) / (m : ℝ) ≤ 2 * (e₂ : ℝ) / (m : ℝ) := by
      have : (e₁ : ℝ) ≤ (e₂ : ℝ) := by exact_mod_cast h12e
      gcongr
    have hd₂ : (0:ℝ) < 2 * (e₂ : ℝ) / (m : ℝ) := lt_of_lt_of_le hd₁ hdd
    have hβ : (0:ℝ) < 0.5 - ηV := by linarith
    have h2L := bParam_denom_pos hd₁ hβ hb₁
    have hb12 := bParam_mono (m := m) hβ h2L hdd
    have ha' : (0:ℝ) ≤ (a : ℝ) := by exact_mod_cast ha
    have hquot : bParam m (2 * (e₂ : ℝ) / (m : ℝ)) ηV /
        denomParam (bParam m (2 * (e₂ : ℝ) / (m : ℝ)) ηV) ηV ηE ≤
        bParam m (2 * (e₁ : ℝ) / (m : ℝ)) ηV /
        denomParam (bParam m (2 * (e₁ : ℝ) / (m : ℝ)) ηV) ηV ηE := by
      rw [div_le_div_iff₀ hdn₂ hdn₁]
      unfold denomParam
      nlinarith [mul_le_mul_of_nonneg_right hb12 (le_of_lt hβ)]
    have had : (a : ℝ) / (2 * (e₂ : ℝ) / (m : ℝ)) ≤ (a : ℝ) / (2 * (e₁ : ℝ) / (m : ℝ)) :=
      div_le_div_of_nonneg_left ha' hd₁ hdd
    have hprod : bParam m (2 * (e₂ : ℝ) / (m : ℝ)) ηV /
        denomParam (bParam m (2 * (e₂ : ℝ) / (m : ℝ)) ηV) ηV ηE *
        ((a : ℝ) / (2 * (e₂ : ℝ) / (m : ℝ))) ≤
        bParam m (2 * (e₁ : ℝ) / (m : ℝ)) ηV /
        denomParam (bParam m (2 * (e₁ : ℝ) / (m : ℝ)) ηV) ηV ηE *
        ((a : ℝ) / (2 * (e₁ : ℝ) / (m : ℝ))) :=
      mul_le_mul hquot had (div_nonneg ha' (le_of_lt hd₂))
        (le_of_lt (div_pos (by linarith) hdn₁))
    rw [compute_sybil_bound_formal_eq m e₂ h a ηE ηV r hm (by omega) hb₂ hdn₂,
        compute_sybil_bound_formal_eq m e₁ h a ηE ηV r hm (by omega) hb₁ hdn₁,
        ExceptOk_ok_ok]
    rw [sybilBoundResult_max, sybilBoundResult_max]
    exact max_le_max le_rfl (pyInt_mono_of_nonneg
      (mul_nonneg (le_of_lt (div_pos (by linarith) hdn₂)) (div_nonneg ha' (le_of_lt hd₂)))
      hprod)
  · intro m e₁ e₂ h a ηE ηV r hm he₁ h12e ha hv hv5 hr hC₁ hC₂
    have hm1 : 1 < m := by omega
    have hm0' : (0:ℝ) < (m : ℝ) := by exact_mod_cast (by omega : 0 < m)
    have hm3' : (3:ℝ) ≤ (m : ℝ) := by exact_mod_cast hm
    have he₁' : (0:ℝ) < (e₁ : ℝ) := by exact_mod_cast (by omega : 0 < e₁)
    have hd₁ : (0:ℝ) < 2 * (e₁ : ℝ) / (m : ℝ) := by positivity
    have hdd : 2 * (e₁ : ℝ) / (m : ℝ) ≤ 2 * (e₂ : ℝ) / (m : ℝ) := by
      have : (e₁ : ℝ) ≤ (e₂ : ℝ) := by exact_mod_cast h12e
      gcongr
    have hd₂ : (0:ℝ) < 2 * (e₂ : ℝ) / (m : ℝ) := lt_of_lt_of_le hd₁ hdd
    have hL1 : 1 < Real.log (m : ℝ) := one_lt_log_of_le (by linarith)
    have h2L : (0:ℝ) < 2 * Real.log (m : ℝ) - 2 := by linarith
    have hx₁ : 0 ≤ 2 * (e₁ : ℝ) / (m : ℝ) * (0.5 - ηV) / (2 * Real.log (m : ℝ) - 2) :=
      div_nonneg (mul_nonneg (le_of_lt hd₁) (by linarith)) (le_of_lt h2L)
    have hx₂ : 0 ≤ 2 * (e₂ : ℝ) / (m : ℝ) * (0.5 - ηV) / (2 * Real.log (m : ℝ) - 2) :=
      div_nonneg (mul_nonneg (le_of_lt hd₂) (by linarith)) (le_of_lt h2L)
    have hdr₁ : ¬ (2 * (e₁ : ℝ) / (m : ℝ) * r = 0) := mul_ne_zero (ne_of_gt hd₁) hr
    have hdr₂ : ¬ (2 * (e₂ : ℝ) / (m : ℝ) * r = 0) := mul_ne_zero (ne_of_gt hd₂) hr
    have hL0 : 0 ≤ Real.log (m : ℝ) := by linarith
    have hK0 : (0:ℝ) ≤ 40 + (ηV * (m : ℝ) + 2) * Real.log (m : ℝ) + ηV * (m : ℝ) := by
      nlinarith [mul_nonneg hv (le_of_lt hm0')]
    rw [compute_sybil_bound_fallback_eq m e₂ h a ηE ηV r hm1 (by omega) hx₂ hC₂ hdr₂,
        compute_sybil_bound_fallback_eq m e₁ h a ηE ηV r hm1 (by omega) hx₁ hC₁ hdr₁,
        ExceptOk_ok_ok]
    rw [sybilBoundResult_max, sybilBoundResult_max]
    exact sybil_fallback_antitone _ (pyInt_nonneg hK0) _ _ r hd₁ hdd ha

theorem bParam_nonneg (m : ℕ) (d ηV : ℝ) : 0 ≤ bParam m d ηV := Real.sqrt_nonneg _

/-- Claim C4, counterexample: on a fixed 1000-node graph with a = 10000
attack edges, ηE = 0.125, ηV = 0.025 and expansion ratio 2, raising the
average degree from 40 (20000 edges, where the formal bound is
inapplicable and the coarse fallback `a/(d·r)` yields 125, clamped to the
baseline K ≤ 256) to 80 (40000 edges, where the Theorem-4.4 branch
applies and yields at least 1328) strictly INCREASES `max_sybil_nodes`
(both computations return), refuting monotone non-increase in the average
degree. -/
theorem spec_c4_counterexample :
    ExceptOk (compute_sybil_bound 1000 20000 1000 10000 0.125 0.025 2) (fun bound₁ =>
      ExceptOk (compute_sybil_bound 1000 40000 1000 10000 0.125 0.025 2) (fun bound₂ =>
        bound₁.max_sybil_nodes < bound₂.max_sybil_nodes)) := by
  have hL1 := log_1000_ge
  have hL2 := log_1000_le
  have h2L : (0:ℝ) < 2 * Real.log 1000 - 2 := by nlinarith
  have h2Lc : (0:ℝ) < 2 * Real.log ((1000:ℕ) : ℝ) - 2 := by push_cast; nlinarith
  have hd1 : 2 * ((20000:ℕ) : ℝ) / ((1000:ℕ) : ℝ) = 40 := by norm_num
  have hd2 : 2 * ((40000:ℕ) : ℝ) / ((1000:ℕ) : ℝ) = 80 := by norm_num
  have hb1 : bParam 1000 40 0.025 ≤ 1.3 := by
    unfold bParam
    push_cast
    apply sqrt_le_of_sq (by norm_num)
    rw [div_le_iff₀ h2L]
    nlinarith
  have hdn1 : denomParam (bParam 1000 40 0.025) 0.025 0.125 ≤ 0 := by
    unfold denomParam
    nlinarith [bParam_nonneg 1000 40 0.025]
  have hb2lo : (1.76:ℝ) ≤ bParam 1000 80 0.025 := by
    unfold bParam
    push_cast
    apply Real.le_sqrt_of_sq_le
    rw [le_div_iff₀ h2L]
    nlinarith
  have hb2hi : bParam 1000 80 0.025 ≤ 1.83 := by
    unfold bParam
    push_cast
    apply sqrt_le_of_sq (by norm_num)
    rw [div_le_iff₀ h2L]
    nlinarith
  have hdn2pos : 0 < denomParam (bParam 1000 80 0.025) 0.025 0.125 := by
    unfold denomParam
    nlinarith
  have hdn2hi : denomParam (bParam 1000 80 0.025) 0.025 0.125 ≤ 0.1655 := by
    unfold denomParam
    nlinarith
  have hquot : (10.63:ℝ) ≤ bParam 1000 80 0.025 /
      denomParam (bParam 1000 80 0.025) 0.025 0.125 := by
    rw [le_div_iff₀ hdn2pos]
    nlinarith
  have hb2gt1 : 1 < bParam 1000 80 0.025 := by nlinarith
  have hC1 : bParam 1000 (2 * ((20000:ℕ) : ℝ) / ((1000:ℕ) : ℝ)) 0.025 ≤ 1 ∨
      denomParam (bParam 1000 (2 * ((20000:ℕ) : ℝ) / ((1000:ℕ) : ℝ)) 0.025)
        0.025 0.125 ≤ 0 := by
    rw [hd1]
    exact Or.inr hdn1
  have hx20 : 0 ≤ 2 * ((20000:ℕ) : ℝ) / ((1000:ℕ) : ℝ) * (0.5 - 0.025) /
      (2 * Real.log ((1000:ℕ) : ℝ) - 2) := by
    refine div_nonneg ?_ (le_of_lt h2Lc)
    rw [hd1]
    norm_num
  have hdr20 : ¬ (2 * ((20000:ℕ) : ℝ) / ((1000:ℕ) : ℝ) * 2 = 0) := by
    rw [hd1]
    norm_num
  have hb40 : 1 < bParam 1000 (2 * ((40000:ℕ) : ℝ) / ((1000:ℕ) : ℝ)) 0.025 := by
    rw [hd2]
    exact hb2gt1
  have hdn40 : 0 < denomParam (bParam 1000 (2 * ((40000:ℕ) : ℝ) / ((1000:ℕ) : ℝ)) 0.025)
      0.025 0.125 := by
    rw [hd2]
    exact hdn2pos
  rw [compute_sybil_bound_fallback_eq 1000 20000 1000 10000 0.125 0.025 2 (by norm_num)
        (by norm_num) hx20 hC1 hdr20,
      compute_sybil_bound_formal_eq 1000 40000 1000 10000 0.125 0.025 2 (by norm_num)
        (by norm_num) hb40 hdn40,
      ExceptOk_ok_ok]
  rw [sybilBoundResult_max, sybilBoundResult_max]
  rw [hd1, hd2]
  have hiv : ((10000:ℤ) : ℝ) / (40 * 2) = ((125:ℤ) : ℝ) := by norm_num
  rw [hiv, pyInt_of_nonneg (x := ((125:ℤ) : ℝ)) (by norm_num), Int.floor_intCast]
  have hK0 : (0:ℝ) ≤ 40 + (0.025 * ((1000:ℕ) : ℝ) + 2) * Real.log ((1000:ℕ) : ℝ)
      + 0.025 * ((1000:ℕ) : ℝ) := by push_cast; nlinarith
  have hK256 : pyInt (40 + (0.025 * ((1000:ℕ) : ℝ) + 2) * Real.log ((1000:ℕ) : ℝ)
      + 0.025 * ((1000:ℕ) : ℝ)) ≤ 256 := by
    apply pyInt_le hK0
    push_cast
    nlinarith
  have hK125 : (125:ℤ) ≤ pyInt (40 + (0.025 * ((1000:ℕ) : ℝ) + 2) * Real.log ((1000:ℕ) : ℝ)
      + 0.025 * ((1000:ℕ) : ℝ)) := by
    apply le_pyInt (by norm_num)
    push_cast
    nlinarith
  have ht2 : (1328:ℤ) ≤ pyInt (bParam 1000 80 0.025 /
      denomParam (bParam 1000 80 0.025) 0.025 0.125 * (((10000:ℤ) : ℝ) / 80)) := by
    apply le_pyInt (by norm_num)
    push_cast
    nlinarith
  calc max (pyInt (40 + (0.025 * ((1000:ℕ) : ℝ) + 2) * Real.log ((1000:ℕ) : ℝ)
        + 0.025 * ((1000:ℕ) : ℝ))) (125:ℤ) =
      pyInt (40 + (0.025 * ((1000:ℕ) : ℝ) + 2) * Real.log ((1000:ℕ) : ℝ)
        + 0.025 * ((1000:ℕ) : ℝ)) := max_eq_left hK125
  _ ≤ 256 := hK256
  _ < 1328 := by norm_num
  _ ≤ _ := le_trans ht2 (le_max_right _ _)

/-- Claim C4, witness: the three parts of the amended statement at
concrete inputs — attack-edge monotonicity on the returned bounds of a
4-node, 3-edge graph (fallback branch, a = 1 vs a = 2); degree
antitonicity within the formal branch (d = 60 vs d = 80 on a 1000-node
graph); degree antitonicity within the fallback branch (ηE = 0.5 forces
the coarse bound on a 3-node graph). -/
theorem spec_c4_witness :
    ((sybilBoundResult 4 4 1 (2 * ((3:ℕ) : ℝ) / ((4:ℕ) : ℝ)) 2 0.025
        (pyInt (((1:ℤ) : ℝ) / (2 * ((3:ℕ) : ℝ) / ((4:ℕ) : ℝ) * 2)))).max_sybil_nodes ≤
      (sybilBoundResult 4 4 2 (2 * ((3:ℕ) : ℝ) / ((4:ℕ) : ℝ)) 2 0.025
        (pyInt (((2:ℤ) : ℝ) / (2 * ((3:ℕ) : ℝ) / ((4:ℕ) : ℝ) * 2)))).max_sybil_nodes) ∧
    ExceptOk (compute_sybil_bound 1000 40000 1000 10000 0.125 0.025 2) (fun bound₂ =>
      ExceptOk (compute_sybil_bound 1000 30000 1000 10000 0.125 0.025 2) (fun bound₁ =>
        bound₂.max_sybil_nodes ≤ bound₁.max_sybil_nodes)) ∧
    ExceptOk (compute_sybil_bound 3 2 3 5 0.5 0 1) (fun bound₂ =>
      ExceptOk (compute_sybil_bound 3 1 3 5 0.5 0 1) (fun bound₁ =>
        bound₂.max_sybil_nodes ≤ bound₁.max_sybil_nodes)) := by
  have hlog4 := log_four_gt
  have h2L4 : (0:ℝ) < 2 * Real.log ((4:ℕ) : ℝ) - 2 := by
    push_cast
    nlinarith
  have hx43 : 0 ≤ 2 * ((3:ℕ) : ℝ) / ((4:ℕ) : ℝ) * (0.5 - 0.025) /
      (2 * Real.log ((4:ℕ) : ℝ) - 2) := by
    refine div_nonneg ?_ (le_of_lt h2L4)
    push_cast
    norm_num
  have hb43 : bParam 4 (2 * ((3:ℕ) : ℝ) / ((4:ℕ) : ℝ)) 0.025 ≤ 1 := by
    unfold bParam
    apply sqrt_le_of_sq (by norm_num)
    rw [div_le_iff₀ h2L4]
    push_cast
    nlinarith
  have heq1 := compute_sybil_bound_fallback_eq 4 3 4 1 0.125 0.025 2 (by norm_num)
    (by norm_num) hx43 (Or.inl hb43) (by push_cast; norm_num)
  have heq2 := compute_sybil_bound_fallback_eq 4 3 4 2 0.125 0.025 2 (by norm_num)
    (by norm_num) hx43 (Or.inl hb43) (by push_cast; norm_num)
  have hL1 := log_1000_ge
  have hL2 := log_1000_le
  have h2L : (0:ℝ) < 2 * Real.log 1000 - 2 := by nlinarith
  have hd60 : 2 * ((30000:ℕ) : ℝ) / ((1000:ℕ) : ℝ) = 60 := by norm_num
  have hd80 : 2 * ((40000:ℕ) : ℝ) / ((1000:ℕ) : ℝ) = 80 := by norm_num
  have hb60lo : (1.52:ℝ) ≤ bParam 1000 60 0.025 := by
    unfold bParam
    push_cast
    apply Real.le_sqrt_of_sq_le
    rw [le_div_iff₀ h2L]
    nlinarith
  have hb80lo : (1.76:ℝ) ≤ bParam 1000 80 0.025 := by
    unfold bParam
    push_cast
    apply Real.le_sqrt_of_sq_le
    rw [le_div_iff₀ h2L]
    nlinarith
  have hdn60 : 0 < denomParam (bParam 1000 60 0.025) 0.025 0.125 := by
    unfold denomParam
    nlinarith
  have hdn80 : 0 < denomParam (bParam 1000 80 0.025) 0.025 0.125 := by
    unfold denomParam
    nlinarith
  refine ⟨spec_c4_amended.1 4 3 4 0.125 0.025 2 1 2 _ _ (by norm_num) (by norm_num)
      (by norm_num) heq1 heq2,
    spec_c4_amended.2.1 1000 30000 40000 1000 10000 0.125 0.025 2 (by norm_num)
      (by norm_num) (by norm_num) (by norm_num) (by norm_num) (by norm_num) (by norm_num)
      (by rw [hd60]; nlinarith) (by rw [hd60]; exact hdn60)
      (by rw [hd80]; nlinarith) (by rw [hd80]; exact hdn80),
    spec_c4_amended.2.2 3 1 2 3 5 0.5 0 1 (by norm_num) (by norm_num) (by norm_num)
      (by norm_num) (by norm_num) (by norm_num) (by norm_num) ?_ ?_⟩
  · right
    unfold denomParam
    linarith
  · right
    unfold denomParam
    linarith
/-! ### PPE partner assignment — backend/app/services/ppe_assignment_service.py

`compute_neighborhood` hashes `f"{poll_session_id}:{min(i,j)}:{max(i,j)}"`
with SHA-256 and interprets the first 8 bytes as a value in [0,1).  The
hash is abstracted as a parameter `H : String → ℕ → ℕ → ℝ` giving that
value for a session id and the ordered pair `(min i j, max i j)`; the
claim under verification (symmetry) holds for every such function because
the code feeds the hash the ordered pair. -/

/-- `compute_neighborhood(user_index, all_user_indices, edge_probability,
poll_session_id)`: the set of `j` in the index list, different from `i`,
whose pair-hash value is below the edge probability. -/
def compute_neighborhood (H : String → ℕ → ℕ → ℝ) (user_index : ℕ)
    (all_user_indices : List ℕ) (edge_probability : ℝ)
    (poll_session_id : String) : Set ℕ :=
  {j | j ∈ all_user_indices ∧ user_index ≠ j ∧
    H poll_session_id (min user_index j) (max user_index j) < edge_probability}

/-- Claim C5: for every session id, edge probability, participant index
list and hash function, and all distinct indices i, j in the list,
`j ∈ compute_neighborhood i … ↔ i ∈ compute_neighborhood j …`. -/
theorem spec_c5 (H : String → ℕ → ℕ → ℝ) (sid : String) (p : ℝ)
    (all : List ℕ) (i j : ℕ) (hi : i ∈ all) (hj : j ∈ all) (hij : i ≠ j) :
    j ∈ compute_neighborhood H i all p sid ↔ i ∈ compute_neighborhood H j all p sid := by
  simp only [compute_neighborhood, Set.mem_setOf_eq]
  rw [min_comm j i, max_comm j i]
  constructor
  · rintro ⟨_, _, hh⟩
    exact ⟨hi, hij.symm, hh⟩
  · rintro ⟨_, _, hh⟩
    exact ⟨hj, hij, hh⟩

/-- Claim C5, witness: symmetry instantiated at a concrete two-element
index list, probability 1 and the constant-zero hash. -/
theorem spec_c5_witness :
    (0:ℕ) ∈ [0, 1] ∧ (1:ℕ) ∈ [0, 1] ∧ (0:ℕ) ≠ 1 ∧
      ((1:ℕ) ∈ compute_neighborhood (fun _ _ _ => 0) 0 [0, 1] 1 "sid" ↔
        (0:ℕ) ∈ compute_neighborhood (fun _ _ _ => 0) 1 [0, 1] 1 "sid") :=
  ⟨by norm_num, by norm_num, by norm_num,
   spec_c5 (fun _ _ _ => 0) "sid" 1 [0, 1] 0 1 (by norm_num) (by norm_num) (by norm_num)⟩

/-! ### Ideal graph generation — backend/app/utils/graph_utils.py

`generate_ideal_graph` builds a Python dict mapping user ids to neighbor
sets; a dict is modelled as an association list with insertion that
replaces an existing key (Python assignment semantics).  The SHA-256 seed
derivation (`generate_seed_from_poll_id`) and the networkx-based random
regular graph construction (`generate_random_regular_graph`) are abstracted
as parameters `seedOf` and `rrg`; the claim under verification only
concerns the degenerate 0/1/2-participant cases, which the source handles
before either is invoked. -/

/-- Python dict assignment `dict[key] = value` on an association list. -/
def pyDictInsert {α β : Type _} [DecidableEq α] (l : List (α × β)) (key : α) (v : β) :
    List (α × β) :=
  if l.any (fun q => q.1 = key) then
    l.map (fun q => if q.1 = key then (key, v) else q)
  else l ++ [(key, v)]

/-- `generate_ideal_graph(participant_ids, poll_id, k)`. -/
def generate_ideal_graph (seedOf : String → ℕ) (rrg : ℕ → ℕ → ℕ → List (ℕ × Finset ℕ))
    (participant_ids : List String) (poll_id : String) (k : ℕ) :
    List (String × Finset String) :=
  match participant_ids with
  | [] => []
  | [a] => pyDictInsert [] a ∅
  | [a, b] => pyDictInsert (pyDictInsert [] a {b}) b {a}
  | _ =>
    let n := participant_ids.length
    let max_k := n - 1
    let effective_k := min k max_k
    let seed := seedOf poll_id
    let index_graph := rrg n effective_k seed
    index_graph.foldl
      (fun user_graph q =>
        pyDictInsert user_graph (participant_ids.getD q.1 "")
          (q.2.image (fun idx => participant_ids.getD idx "")))
      []

/-- Claim C7: `generate_ideal_graph` on no participants returns the empty
map; on one participant it returns exactly that participant mapped to the
empty neighbor set; on exactly two (distinct) participants it returns the
single mutual edge, regardless of the requested degree `k` (and of the
seed and regular-graph generator). -/
theorem spec_c7 (seedOf : String → ℕ) (rrg : ℕ → ℕ → ℕ → List (ℕ × Finset ℕ))
    (poll_id : String) (k : ℕ) :
    (generate_ideal_graph seedOf rrg [] poll_id k = []) ∧
    (∀ a : String, generate_ideal_graph seedOf rrg [a] poll_id k = [(a, ∅)]) ∧
    (∀ a b : String, a ≠ b →
      generate_ideal_graph seedOf rrg [a, b] poll_id k = [(a, {b}), (b, {a})]) := by
  refine ⟨rfl, fun a => rfl, fun a b hab => ?_⟩
  simp only [generate_ideal_graph, pyDictInsert]
  simp [hab, Ne.symm hab]

/-- Claim C7, witness: the two-participant case at concrete ids "u" and
"v" (with a trivial seed and generator), along with the 0- and
1-participant cases. -/
theorem spec_c7_witness :
    (generate_ideal_graph (fun _ => 0) (fun _ _ _ => []) [] "poll" 3 = []) ∧
    (generate_ideal_graph (fun _ => 0) (fun _ _ _ => []) ["u"] "poll" 3 = [("u", ∅)]) ∧
    ("u" ≠ "v" ∧
      generate_ideal_graph (fun _ => 0) (fun _ _ _ => []) ["u", "v"] "poll" 3 =
        [("u", {"v"}), ("v", {"u"})]) :=
  ⟨(spec_c7 (fun _ => 0) (fun _ _ _ => []) "poll" 3).1,
   (spec_c7 (fun _ => 0) (fun _ _ _ => []) "poll" 3).2.1 "u",
   by decide,
   (spec_c7 (fun _ => 0) (fun _ _ _ => []) "poll" 3).2.2 "u" "v" (by decide)⟩

/-! ### Spectral analysis — backend/app/services/spectral_analysis.py

`np.linalg.eigvalsh` / `scipy eigsh` are idealized as the true eigenvalues
of the (symmetric, positive-semidefinite) graph Laplacian, provided by
Mathlib's spectral theorem; `np.sort` is `List.mergeSort`.  The wall-clock
`computation_time_ms` field is not representable in a shallow embedding
and is omitted.  The graph is `SimpleGraph (Fin n)` and the Laplacian is
Mathlib's `SimpleGraph.lapMatrix ℝ`. -/

structure SpectralGapResult where
  second_eigenvalue : ℝ
  algebraic_connectivity : ℝ
  satisfies_threshold : Prop
  threshold : ℝ

open Classical in
/-- Sorted eigenvalue list of the Laplacian (`np.sort(np.linalg.eigvalsh(L))`). -/
noncomputable def sortedEigenvalues {n : ℕ} (G : SimpleGraph (Fin n))
    [DecidableRel G.Adj] : List ℝ :=
  (List.ofFn (SimpleGraph.posSemidef_lapMatrix ℝ G).1.eigenvalues).mergeSort
    (fun x y => decide (x ≤ y))

/-- `_compute_dense_spectral_gap`: all eigenvalues, sorted; the second
smallest if there are at least two, else 0. -/
noncomputable def dense_spectral_gap {n : ℕ} (G : SimpleGraph (Fin n))
    [DecidableRel G.Adj] : ℝ :=
  let eigenvalues := sortedEigenvalues G
  if 1 < eigenvalues.length then eigenvalues.getD 1 0 else 0

/-- `_compute_sparse_spectral_gap`: the smallest `min 3 (m−1)` eigenvalues
(idealizing the converged ARPACK solve), sorted; the second smallest if
there are at least two, else 0. -/
noncomputable def sparse_spectral_gap {n : ℕ} (G : SimpleGraph (Fin n))
    [DecidableRel G.Adj] : ℝ :=
  let eigenvalues := (sortedEigenvalues G).take (min 3 (n - 1))
  if 1 < eigenvalues.length then eigenvalues.getD 1 0 else 0

open Classical in
/-- `SpectralAnalyzer.compute_spectral_gap`. -/
noncomputable def compute_spectral_gap {n : ℕ} (G : SimpleGraph (Fin n))
    [DecidableRel G.Adj] (threshold : ℝ) (method : String) : SpectralGapResult :=
  if n = 0 then ⟨0, 0, False, threshold⟩
  else
    let lambda_2 := if method = "sparse" ∧ 100 < n then sparse_spectral_gap G
      else dense_spectral_gap G
    ⟨lambda_2, lambda_2, threshold ≤ lambda_2, threshold⟩

/-- Claim C9: on the zero-node graph `compute_spectral_gap` returns
λ₂ = 0 (with `satisfies_threshold = False`, as the source hard-codes) and
on a single-node graph it returns λ₂ = 0, for every threshold and method;
being a total function, the embedding raises no exception. -/
theorem spec_c9 :
    (∀ (G : SimpleGraph (Fin 0)) [DecidableRel G.Adj] (threshold : ℝ) (method : String),
      compute_spectral_gap G threshold method =
        ⟨0, 0, False, threshold⟩) ∧
    (∀ (G : SimpleGraph (Fin 1)) [DecidableRel G.Adj] (threshold : ℝ) (method : String),
      (compute_spectral_gap G threshold method).second_eigenvalue = 0 ∧
      (compute_spectral_gap G threshold method).algebraic_connectivity = 0) := by
  constructor
  · intro G _ threshold method
    simp [compute_spectral_gap]
  · intro G _ threshold method
    have hlen : (sortedEigenvalues G).length = 1 := by
      simp [sortedEigenvalues]
    have hnl : ¬ (1 < (sortedEigenvalues G).length) := by omega
    have hdense : dense_spectral_gap G = 0 := by
      simp only [dense_spectral_gap]
      rw [if_neg hnl]
    have hcond : ¬ (method = "sparse" ∧ 100 < 1) := by
      rintro ⟨_, h⟩
      omega
    have hlam : (if method = "sparse" ∧ 100 < 1 then sparse_spectral_gap G
        else dense_spectral_gap G) = 0 := by
      rw [if_neg hcond, hdense]
    have hone : ¬ (1 = 0) := by omega
    simp only [compute_spectral_gap]
    rw [if_neg hone]
    exact ⟨hlam, hlam⟩
